import Mathlib

/-!
Verification of the SMC FDC37C665GT/672 Super I/O chip emulation
(superio.c, parallel.c, serial.c of rpcemu-extended).

The C code is shallowly embedded: every static/global mutable structure
becomes an explicit Lean structure passed through the functions, machine
bytes are `Nat` (with masks applied exactly where the C code applies them:
every value that enters through `uint8_t` parameters is already below 256
at its call sites, and the dispatcher truncates with `% 256` like its
`(uint8_t)` cast), C `int` counters that the code can in principle drive
negative are `Int`, and calls into device plug-ins / sibling chips
(printer callbacks, FDC, IDE, i8042) are recorded as events rather than
executed, since those devices live outside this core.
-/

/-! ## Register-bit constants (superio.c) -/

def PP_MODE_SPP : Nat := 0
def PP_MODE_PS2 : Nat := 1
def PP_MODE_FIFO : Nat := 2
def PP_MODE_ECP : Nat := 3
def PP_MODE_EPP : Nat := 4

def PP_CTRL_STROBE : Nat := 0x01
def PP_CTRL_nINIT : Nat := 0x04
def PP_CTRL_IRQEN : Nat := 0x10
def PP_CTRL_BIDI : Nat := 0x20

def PP_STATUS_nERROR : Nat := 0x08
def PP_STATUS_SELECT : Nat := 0x10
def PP_STATUS_nACK : Nat := 0x40
def PP_STATUS_nBUSY : Nat := 0x80

def ECR_FIFO_EMPTY : Nat := 0x01
def ECR_FIFO_FULL : Nat := 0x02
def ECR_MODE_SHIFT : Nat := 5

/-! ## ParallelPort state (superio.c, struct ParallelPort)

The 16-byte FIFO ring is a `List Nat` of length 16; `fifo_count` is an
`Int` exactly like the C `int fifo_count`, so "never negative" is a real
statement, not a typing artifact. -/

structure ParallelPort where
  data : Nat
  status : Nat
  control : Nat
  ecr : Nat
  config_a : Nat
  config_b : Nat
  fifo : List Nat
  fifo_head : Nat
  fifo_tail : Nat
  fifo_count : Int
  last_strobe : Bool
  ack_pending : Int
  base_addr : Nat
deriving Repr, DecidableEq

/-- parallel_reset in superio.c: memset to zero, then set base and defaults. -/
def parallel_reset (base : Nat) : ParallelPort :=
  { data := 0
    status := 0xD8   -- PP_STATUS_nBUSY | PP_STATUS_nACK | PP_STATUS_SELECT | PP_STATUS_nERROR
    control := 0x04  -- PP_CTRL_nINIT
    ecr := 0x01      -- (PP_MODE_SPP << ECR_MODE_SHIFT) | ECR_FIFO_EMPTY
    config_a := 0x00
    config_b := 0x00
    fifo := List.replicate 16 0
    fifo_head := 0
    fifo_tail := 0
    fifo_count := 0
    last_strobe := false
    ack_pending := 0
    base_addr := base }

/-- parallel_fifo_push in superio.c.  `&= ~ECR_FIFO_EMPTY` on a uint8_t is
`&&& 0xFE`. -/
def parallel_fifo_push (pp : ParallelPort) (d : Nat) : ParallelPort :=
  if pp.fifo_count < 16 then
    let pp1 := { pp with
      fifo := pp.fifo.set pp.fifo_tail d
      fifo_tail := (pp.fifo_tail + 1) % 16
      fifo_count := pp.fifo_count + 1 }
    let pp2 := { pp1 with ecr := pp1.ecr &&& 0xFE }
    if 16 ≤ pp2.fifo_count then { pp2 with ecr := pp2.ecr ||| ECR_FIFO_FULL } else pp2
  else pp

/-- parallel_fifo_pop in superio.c, returning the popped byte (0 when the
FIFO is empty) next to the new state.  `&= ~ECR_FIFO_FULL` is `&&& 0xFD`. -/
def parallel_fifo_pop (pp : ParallelPort) : Nat × ParallelPort :=
  if 0 < pp.fifo_count then
    let d := pp.fifo.getD pp.fifo_head 0
    let pp1 := { pp with
      fifo_head := (pp.fifo_head + 1) % 16
      fifo_count := pp.fifo_count - 1 }
    let pp2 := { pp1 with ecr := pp1.ecr &&& 0xFD }
    let pp3 := if pp2.fifo_count = 0 then { pp2 with ecr := pp2.ecr ||| ECR_FIFO_EMPTY } else pp2
    (d, pp3)
  else (0, pp)

/-! ## FIFO operation sequences (for the fifo_count invariant) -/

inductive FifoOp where
  | push (d : Nat)
  | pop
deriving Repr, DecidableEq

def applyFifoOp (pp : ParallelPort) : FifoOp → ParallelPort
  | FifoOp.push d => parallel_fifo_push pp d
  | FifoOp.pop => (parallel_fifo_pop pp).2

def applyFifoOps (pp : ParallelPort) (ops : List FifoOp) : ParallelPort :=
  ops.foldl applyFifoOp pp

/-- The FIFO bookkeeping invariant tied to the ECR status bits. -/
def FifoInv (pp : ParallelPort) : Prop :=
  0 ≤ pp.fifo_count ∧ pp.fifo_count ≤ 16 ∧
  (pp.ecr &&& ECR_FIFO_EMPTY = ECR_FIFO_EMPTY ↔ pp.fifo_count = 0) ∧
  (pp.ecr &&& ECR_FIFO_FULL = ECR_FIFO_FULL ↔ pp.fifo_count = 16)

/-! Small bit facts about bytes, used to track the two low ECR bits through
`&&& 0xFE`, `&&& 0xFD`, `||| 1`, `||| 2`. -/

theorem lor_one_and_one (x : Nat) : (x ||| 1) &&& 1 = 1 := by
  apply Nat.eq_of_testBit_eq
  intro i
  simp only [Nat.testBit_and, Nat.testBit_or]
  cases h : Nat.testBit 1 i <;> simp [h]

theorem lor_two_and_two (x : Nat) : (x ||| 2) &&& 2 = 2 := by
  apply Nat.eq_of_testBit_eq
  intro i
  simp only [Nat.testBit_and, Nat.testBit_or]
  cases h : Nat.testBit 2 i <;> simp [h]

theorem lor_two_and_one (x : Nat) : (x ||| 2) &&& 1 = x &&& 1 := by
  apply Nat.eq_of_testBit_eq
  intro i
  simp only [Nat.testBit_and, Nat.testBit_or]
  cases i with
  | zero => simp [Nat.testBit_zero]
  | succ n => simp [Nat.testBit_add_one, Nat.zero_testBit]

theorem lor_one_and_two (x : Nat) : (x ||| 1) &&& 2 = x &&& 2 := by
  apply Nat.eq_of_testBit_eq
  intro i
  simp only [Nat.testBit_and, Nat.testBit_or]
  cases i with
  | zero => simp [Nat.testBit_zero]
  | succ n =>
      cases n with
      | zero => simp [Nat.testBit_add_one, Nat.testBit_zero]
      | succ k => simp [Nat.testBit_add_one, Nat.zero_testBit]

theorem and_mask_and (x m k : Nat) : (x &&& m) &&& k = x &&& (m &&& k) :=
  Nat.and_assoc x m k

/-- Preservation of the FIFO invariant by a push. -/
theorem fifoInv_push (pp : ParallelPort) (d : Nat) (h : FifoInv pp) :
    FifoInv (parallel_fifo_push pp d) := by
  obtain ⟨h0, h16, hE, hF⟩ := h
  simp only [ECR_FIFO_EMPTY, ECR_FIFO_FULL] at hE hF
  unfold parallel_fifo_push FifoInv
  simp only [ECR_FIFO_EMPTY, ECR_FIFO_FULL]
  split_ifs with hlt hfull
  all_goals try dsimp only
  · refine ⟨by omega, by omega, ?_, ?_⟩
    · rw [lor_two_and_one, and_mask_and]
      have hm : (254 : Nat) &&& 1 = 0 := by decide
      rw [hm, Nat.and_zero]
      omega
    · rw [lor_two_and_two]
      omega
  · refine ⟨by omega, by omega, ?_, ?_⟩
    · rw [and_mask_and]
      have hm : (254 : Nat) &&& 1 = 0 := by decide
      rw [hm, Nat.and_zero]
      omega
    · rw [and_mask_and]
      have hm : (254 : Nat) &&& 2 = 2 := by decide
      rw [hm]
      constructor
      · intro hb; exact absurd (hF.mp hb) (by omega)
      · intro hb; exact absurd hb (by omega)
  · exact ⟨h0, h16, by simpa [ECR_FIFO_EMPTY] using hE, by simpa [ECR_FIFO_FULL] using hF⟩

/-- Preservation of the FIFO invariant by a pop. -/
theorem fifoInv_pop (pp : ParallelPort) (h : FifoInv pp) :
    FifoInv (parallel_fifo_pop pp).2 := by
  obtain ⟨h0, h16, hE, hF⟩ := h
  simp only [ECR_FIFO_EMPTY, ECR_FIFO_FULL] at hE hF
  unfold parallel_fifo_pop FifoInv
  simp only [ECR_FIFO_EMPTY, ECR_FIFO_FULL]
  split_ifs with hpos hz
  all_goals try dsimp only
  · refine ⟨by omega, by omega, ?_, ?_⟩
    · rw [lor_one_and_one]
      omega
    · rw [lor_one_and_two, and_mask_and]
      have hm : (253 : Nat) &&& 2 = 0 := by decide
      rw [hm, Nat.and_zero]
      omega
  · refine ⟨by omega, by omega, ?_, ?_⟩
    · rw [and_mask_and]
      have hm : (253 : Nat) &&& 1 = 1 := by decide
      rw [hm]
      constructor
      · intro hb; exact absurd (hE.mp hb) (by omega)
      · intro hb; exact absurd hb hz
    · rw [and_mask_and]
      have hm : (253 : Nat) &&& 2 = 0 := by decide
      rw [hm, Nat.and_zero]
      omega
  · exact ⟨h0, h16, by simpa [ECR_FIFO_EMPTY] using hE, by simpa [ECR_FIFO_FULL] using hF⟩

theorem fifoInv_reset (base : Nat) : FifoInv (parallel_reset base) := by
  unfold FifoInv
  simp only [parallel_reset]
  refine ⟨by omega, by omega, by decide, by decide⟩

theorem fifoInv_ops (pp : ParallelPort) (ops : List FifoOp) (h : FifoInv pp) :
    FifoInv (applyFifoOps pp ops) := by
  induction ops generalizing pp with
  | nil => exact h
  | cons op rest ih =>
      cases op with
      | push d => exact ih _ (fifoInv_push pp d h)
      | pop => exact ih _ (fifoInv_pop pp h)

/-- Claim C3: for every parallel port and every sequence of FIFO push and pop
operations starting from reset, fifo_count stays in [0,16], the ECR empty bit
(bit 0) is set iff fifo_count = 0, and the ECR full bit (bit 1) is set iff
fifo_count = 16. -/
theorem C3_fifo_invariant (base : Nat) (ops : List FifoOp) :
    FifoInv (applyFifoOps (parallel_reset base) ops) :=
  fifoInv_ops _ ops (fifoInv_reset base)

/-! ## Parallel bus (parallel.c)

A device plug-in is a record of callbacks.  The callbacks themselves live
outside this core (printer.c etc.), so the embedding keeps, for each
callback slot, whether it is non-NULL, and records every invocation as an
event.  The only callback whose return value flows back into this core is
get_status; its returned byte is carried as a field of the descriptor and
may be arbitrary. -/

def PARALLEL_CTRL_STROBE : Nat := 0x01
def PARALLEL_CTRL_INIT : Nat := 0x04
def PARALLEL_CTRL_IRQEN : Nat := 0x10

def PARALLEL_STAT_ACK : Nat := 0x40
def PARALLEL_STAT_DEFAULT : Nat := 0xD8  -- BUSY | ACK | SELECT | ERROR bits, all idle-high

structure ParallelDeviceSpec where
  on_write_present : Bool
  on_ctrl_present : Bool
  get_status_present : Bool
  on_reset_present : Bool
  status_val : Nat
deriving Repr, DecidableEq

/-- Invocations of device callbacks, recorded instead of executed. -/
inductive DevEvent where
  | write (b : Nat)
  | ctrl (c : Nat)
  | reset
deriving Repr, DecidableEq

/-- Per-port bus state (parallel.c, struct ParallelBusPort). -/
structure ParallelBusPort where
  data : Nat
  control : Nat
  status : Nat
  strobe_active : Bool
  irq_enabled : Bool
  ack_pending : Int
  has_device : Bool
  device : ParallelDeviceSpec
deriving Repr, DecidableEq

/-- The interrupt-controller bits this core touches.  iomd.h is not part of
the shown sources, so the parallel IRQA bit, the serial FIQ bit and the
SMI IRQB bit are each modelled as one abstract boolean of the controller
status word; |= mask becomes setting the boolean and &= ~mask clearing it. -/
structure IomdState where
  irqa_parallel : Bool
  fiq_serial : Bool
  irqb_smi : Bool
deriving Repr, DecidableEq

/-- State of one bus port after parallel_bus_init + parallel_bus_reset
(parallel.c) with no device attached. -/
def parallel_bus_port_reset : ParallelBusPort :=
  { data := 0
    control := PARALLEL_CTRL_INIT
    status := PARALLEL_STAT_DEFAULT
    strobe_active := false
    irq_enabled := false
    ack_pending := 0
    has_device := false
    device := { on_write_present := false, on_ctrl_present := false,
                get_status_present := false, on_reset_present := false,
                status_val := 0 } }

/-- parallel_bus_write_data: the byte is only latched. -/
def parallel_bus_write_data (p : ParallelBusPort) (d : Nat) : ParallelBusPort :=
  { p with data := d }

/-- parallel_bus_strobe: on a falling edge the latched byte goes to the
device's on_write callback. -/
def parallel_bus_strobe (p : ParallelBusPort) (strobe : Bool) : ParallelBusPort × List DevEvent :=
  let evs := if p.strobe_active ∧ strobe = false ∧ p.has_device ∧ p.device.on_write_present
             then [DevEvent.write p.data] else []
  ({ p with strobe_active := strobe }, evs)

/-- parallel_bus_set_ctrl: strobe diffing, nInit-low device reset, control
callback, and the IRQ-enable latch. -/
def parallel_bus_set_ctrl (p0 : ParallelBusPort) (ctrl : Nat) : ParallelBusPort × List DevEvent :=
  let pr1 :=
    if (p0.control ^^^ ctrl) &&& PARALLEL_CTRL_STROBE ≠ 0 then
      parallel_bus_strobe p0 (decide (ctrl &&& PARALLEL_CTRL_STROBE ≠ 0))
    else (p0, [])
  let p1 := pr1.1
  let ev2 := if ctrl &&& PARALLEL_CTRL_INIT = 0 ∧ p1.has_device ∧ p1.device.on_reset_present
             then [DevEvent.reset] else []
  let ev3 := if p1.has_device ∧ p1.device.on_ctrl_present then [DevEvent.ctrl ctrl] else []
  ({ p1 with control := ctrl, irq_enabled := decide (ctrl &&& PARALLEL_CTRL_IRQEN ≠ 0) },
   pr1.2 ++ ev2 ++ ev3)

/-- parallel_bus_get_status: refresh from the device if one answers status
queries, then let a pending ACK latch force the nACK bit low and count
down.  `&= ~PARALLEL_STAT_ACK` on uint8_t is `&&& 0xBF`. -/
def parallel_bus_get_status (p0 : ParallelBusPort) : Nat × ParallelBusPort :=
  let p1 := if p0.has_device ∧ p0.device.get_status_present
            then { p0 with status := p0.device.status_val } else p0
  if 0 < p1.ack_pending then
    (p1.status &&& 0xBF, { p1 with ack_pending := p1.ack_pending - 1 })
  else
    (p1.status, p1)

/-- parallel_bus_read_data: returns the latched byte. -/
def parallel_bus_read_data (p : ParallelBusPort) : Nat := p.data

/-- parallel_bus_device_ack (device-to-host).  With IRQ enabled: drop the
stored nACK bit, raise the IOMD parallel IRQA bit, put nACK back high.
With IRQ disabled: latch ack_pending = 5 for polling drivers. -/
def parallel_bus_device_ack (p : ParallelBusPort) (io : IomdState) :
    ParallelBusPort × IomdState :=
  if p.irq_enabled then
    ({ p with status := (p.status &&& 0xBF) ||| PARALLEL_STAT_ACK },
     { io with irqa_parallel := true })
  else
    ({ p with ack_pending := 5 }, io)

/-- parallel_bus_device_status (device-to-host): store the raw byte. -/
def parallel_bus_device_status (p : ParallelBusPort) (status : Nat) : ParallelBusPort :=
  { p with status := status }

theorem lor_and_self (x m : Nat) : (x ||| m) &&& m = m := by
  apply Nat.eq_of_testBit_eq
  intro i
  simp only [Nat.testBit_and, Nat.testBit_or]
  cases h : Nat.testBit m i <;> simp [h]

/-- Claim C5, counterexample: with IRQ enabled, parallel_bus_device_ack
leaves the interrupt controller's parallel-IRQ status bit SET on return
(the guest clears it later); only the port's stored nACK bit is pulsed.
The claim asserts the bit is "no longer set" when the call returns. -/
theorem C5_counterexample :
    ((parallel_bus_device_ack { parallel_bus_port_reset with irq_enabled := true }
        { irqa_parallel := false, fiq_serial := false, irqb_smi := false }).2.irqa_parallel
       = false) = False := by
  decide

/-- Claim C5 (amended): for every port with the IRQ-enable flag set,
parallel_bus_device_ack raises the interrupt controller's parallel-IRQ
status bit (which is still set when the call returns, for the guest to
service), and the port's stored nACK status bit is back high on return
after its momentary low pulse. -/
theorem C5_device_ack_irq (p : ParallelBusPort) (io : IomdState)
    (h : p.irq_enabled = true) :
    (parallel_bus_device_ack p io).2.irqa_parallel = true ∧
    (parallel_bus_device_ack p io).1.status &&& PARALLEL_STAT_ACK = PARALLEL_STAT_ACK := by
  unfold parallel_bus_device_ack
  rw [h]
  exact ⟨rfl, lor_and_self _ _⟩

/-- Witness for C5_device_ack_irq at a concrete port. -/
theorem C5_device_ack_irq_witness :
    (parallel_bus_device_ack { parallel_bus_port_reset with irq_enabled := true }
        { irqa_parallel := false, fiq_serial := false, irqb_smi := false }).2.irqa_parallel = true ∧
    (parallel_bus_device_ack { parallel_bus_port_reset with irq_enabled := true }
        { irqa_parallel := false, fiq_serial := false, irqb_smi := false }).1.status &&&
      PARALLEL_STAT_ACK = PARALLEL_STAT_ACK :=
  C5_device_ack_irq _ _ rfl

/-! ## Iterated status reads (for the ACK polling latch) -/

def statusAfter (p : ParallelBusPort) : Nat → ParallelBusPort
  | 0 => p
  | Nat.succ n => (parallel_bus_get_status (statusAfter p n)).2

/-- Value returned by the (k+1)-th consecutive parallel_bus_get_status call. -/
def nthStatus (p : ParallelBusPort) (k : Nat) : Nat :=
  (parallel_bus_get_status (statusAfter p k)).1

theorem statusAfter_no_query (p : ParallelBusPort)
    (hd : (p.has_device = true ∧ p.device.get_status_present = true) → False)
    (ha : 0 ≤ p.ack_pending) (k : Nat) :
    statusAfter p k = { p with ack_pending := max (p.ack_pending - k) 0 } := by
  induction k with
  | zero =>
      obtain ⟨d, c, s, sa, ie, ap, hdev, dev⟩ := p
      simp only [statusAfter, ParallelBusPort.mk.injEq, and_true, true_and]
      simp only at ha
      omega
  | succ n ih =>
      show (parallel_bus_get_status (statusAfter p n)).2 = _
      rw [ih]
      unfold parallel_bus_get_status
      obtain ⟨d, c, s, sa, ie, ap, hdev, dev⟩ := p
      simp only at hd ha ⊢
      have hcond : ((hdev = true ∧ dev.get_status_present = true)) = False :=
        eq_false hd
      simp only [hcond, if_false]
      split_ifs with hpos
      · simp only [ParallelBusPort.mk.injEq, and_true, true_and]
        omega
      · simp only [ParallelBusPort.mk.injEq, and_true, true_and]
        omega

/-- Claim C6: with IRQ disabled and no device answering status queries, a
single parallel_bus_device_ack makes the nACK status bit read back in the
active-low state for exactly the next 5 parallel_bus_get_status calls, and
from the 6th call onward it reads back high again. -/
theorem C6_ack_polling_latch (p : ParallelBusPort) (io : IomdState) (k : Nat)
    (hirq : p.irq_enabled = false)
    (hd : (p.has_device = true ∧ p.device.get_status_present = true) → False)
    (hst : p.status &&& PARALLEL_STAT_ACK = PARALLEL_STAT_ACK) :
    (k < 5 → nthStatus (parallel_bus_device_ack p io).1 k &&& PARALLEL_STAT_ACK = 0) ∧
    (5 ≤ k → nthStatus (parallel_bus_device_ack p io).1 k &&& PARALLEL_STAT_ACK =
      PARALLEL_STAT_ACK) := by
  have hp0 : (parallel_bus_device_ack p io).1 = { p with ack_pending := 5 } := by
    unfold parallel_bus_device_ack
    rw [hirq]
    simp
  rw [hp0]
  have hiter := statusAfter_no_query { p with ack_pending := 5 } (by simpa using hd)
    (by simp) k
  unfold nthStatus
  rw [hiter]
  unfold parallel_bus_get_status
  have hcond : (({ p with ack_pending := 5 } : ParallelBusPort).has_device = true ∧
      ({ p with ack_pending := 5 } : ParallelBusPort).device.get_status_present = true) = False := by
    exact eq_false (by simpa using hd)
  constructor
  · intro hk
    have hpos : (0 : Int) < max ((5 : Int) - k) 0 := by omega
    simp only [hcond, if_false]
    rw [if_pos hpos, and_mask_and]
    have hm : (0xBF : Nat) &&& PARALLEL_STAT_ACK = 0 := by decide
    rw [hm, Nat.and_zero]
  · intro hk
    have hz : ¬ ((0 : Int) < max ((5 : Int) - k) 0) := by omega
    simp only [hcond, if_false]
    rw [if_neg hz]
    exact hst

/-- Witness for C6_ack_polling_latch: reset port, reads 1 and 6. -/
theorem C6_ack_polling_latch_witness :
    (nthStatus (parallel_bus_device_ack parallel_bus_port_reset
        { irqa_parallel := false, fiq_serial := false, irqb_smi := false }).1 0 &&&
      PARALLEL_STAT_ACK = 0) ∧
    (nthStatus (parallel_bus_device_ack parallel_bus_port_reset
        { irqa_parallel := false, fiq_serial := false, irqb_smi := false }).1 5 &&&
      PARALLEL_STAT_ACK = PARALLEL_STAT_ACK) :=
  ⟨(C6_ack_polling_latch parallel_bus_port_reset _ 0 rfl (by decide) (by decide)).1
      (by decide),
   (C6_ack_polling_latch parallel_bus_port_reset _ 5 rfl (by decide) (by decide)).2
      (by decide)⟩

/-! ## Parallel port engine (superio.c) -/

/-- parallel_do_handshake: latch the data byte on the bus, pulse strobe
high then low, then refresh the cached status register from the bus. -/
def parallel_do_handshake (pp : ParallelPort) (p : ParallelBusPort) :
    ParallelPort × ParallelBusPort × List DevEvent :=
  let p1 := parallel_bus_write_data p pp.data
  let r2 := parallel_bus_strobe p1 true
  let r3 := parallel_bus_strobe r2.1 false
  let r4 := parallel_bus_get_status r3.1
  ({ pp with status := r4.1 }, r4.2, r2.2 ++ r3.2)

theorem handshake_fifo_count (pp : ParallelPort) (p : ParallelBusPort) :
    (parallel_do_handshake pp p).1.fifo_count = pp.fifo_count := rfl

theorem handshake_ecr (pp : ParallelPort) (p : ParallelBusPort) :
    (parallel_do_handshake pp p).1.ecr = pp.ecr := rfl

theorem pop_fifo_count (pp : ParallelPort) :
    (parallel_fifo_pop pp).2.fifo_count =
      if 0 < pp.fifo_count then pp.fifo_count - 1 else pp.fifo_count := by
  unfold parallel_fifo_pop
  split_ifs with h
  · dsimp only
    split_ifs <;> rfl
  · rfl

/-- The `while (pp->fifo_count > 0)` auto-drain loop shared by the
FIFO-mode data write and the ECP-FIFO window write: pop, latch, handshake,
repeat.  Terminates because each pop lowers fifo_count by one. -/
def parallel_drain_fifo (pp : ParallelPort) (p : ParallelBusPort) :
    ParallelPort × ParallelBusPort × List DevEvent :=
  if h : 0 < pp.fifo_count then
    let r1 := parallel_fifo_pop pp
    let pp2 := { r1.2 with data := r1.1 }
    let r2 := parallel_do_handshake pp2 p
    let r3 := parallel_drain_fifo r2.1 r2.2.1
    (r3.1, r3.2.1, r2.2.2 ++ r3.2.2)
  else (pp, p, [])
termination_by pp.fifo_count.toNat
decreasing_by
  rw [handshake_fifo_count]
  show ((parallel_fifo_pop pp).2.fifo_count).toNat < pp.fifo_count.toNat
  rw [pop_fifo_count]
  rw [if_pos h]
  omega

/-- parallel_write (superio.c): host write to one of the 8 base registers
of a parallel port.  Returns the new port state, the new bus state and the
device-callback events. -/
def parallel_write (pp : ParallelPort) (offset : Nat) (val : Nat) (p : ParallelBusPort) :
    ParallelPort × ParallelBusPort × List DevEvent :=
  let mode := (pp.ecr >>> ECR_MODE_SHIFT) &&& 7
  if offset = 0 then
    if mode = PP_MODE_FIFO ∨ mode = PP_MODE_ECP then
      parallel_drain_fifo (parallel_fifo_push pp val) p
    else
      ({ pp with data := val }, parallel_bus_write_data p val, [])
  else if offset = 1 then
    (pp, p, [])
  else if offset = 2 then
    let r1 :=
      if pp.control &&& PP_CTRL_STROBE ≠ 0 ∧ val &&& PP_CTRL_STROBE = 0 then
        parallel_do_handshake pp p
      else (pp, p, [])
    let r2 := parallel_bus_set_ctrl r1.2.1 val
    ({ r1.1 with control := val &&& 0x3F }, r2.1, r1.2.2 ++ r2.2)
  else if offset = 3 then
    (pp, p, [])
  else if 4 ≤ offset ∧ offset ≤ 7 then
    if mode = PP_MODE_EPP then
      parallel_do_handshake { pp with data := val } p
    else (pp, p, [])
  else (pp, p, [])

/-- parallel_read (superio.c): host read of one of the 8 base registers.
Returns the byte read, the new port state and the new bus state. -/
def parallel_read (pp : ParallelPort) (offset : Nat) (p : ParallelBusPort) :
    Nat × ParallelPort × ParallelBusPort :=
  let mode := (pp.ecr >>> ECR_MODE_SHIFT) &&& 7
  if offset = 0 then
    if pp.control &&& PP_CTRL_BIDI ≠ 0 ∨ mode = PP_MODE_PS2 ∨
        mode = PP_MODE_ECP ∨ mode = PP_MODE_FIFO then
      (parallel_bus_read_data p, pp, p)
    else
      (pp.data, pp, p)
  else if offset = 1 then
    let r := parallel_bus_get_status p
    (r.1, { pp with status := r.1 }, r.2)
  else if offset = 2 then
    (pp.control, pp, p)
  else if 3 ≤ offset ∧ offset ≤ 7 then
    (0xFF, pp, p)
  else
    (0, pp, p)

/-- parallel_write_ecp (superio.c): host write to the ECP register window
at base+0x400. -/
def parallel_write_ecp (pp : ParallelPort) (offset : Nat) (val : Nat) (p : ParallelBusPort) :
    ParallelPort × ParallelBusPort × List DevEvent :=
  if offset = 0 then
    parallel_drain_fifo (parallel_fifo_push pp val) p
  else if offset = 1 then
    (pp, p, [])
  else if offset = 2 then
    ({ pp with ecr := (val &&& 0x1C) ||| (pp.ecr &&& 0x03) }, p, [])
  else if offset = 3 then
    ({ pp with config_b := val }, p, [])
  else
    (pp, p, [])

/-- parallel_read_ecp (superio.c): host read from the ECP register window. -/
def parallel_read_ecp (pp : ParallelPort) (offset : Nat) : Nat × ParallelPort :=
  if offset = 0 then
    parallel_fifo_pop pp
  else if offset = 1 then
    (pp.config_a, pp)
  else if offset = 2 then
    (pp.ecr, pp)
  else if offset = 3 then
    (pp.config_b, pp)
  else
    (0, pp)

theorem ecr_mix_and (v e m : Nat) :
    ((v &&& 28) ||| (e &&& 3)) &&& m = (v &&& (28 &&& m)) ||| (e &&& (3 &&& m)) := by
  rw [Nat.and_distrib_right, and_mask_and, and_mask_and]

theorem ecr_mix_lt (v e : Nat) : ((v &&& 28) ||| (e &&& 3)) < 32 := by
  have h1 : v &&& 28 < 2 ^ 5 := Nat.lt_of_le_of_lt (Nat.and_le_right) (by norm_num)
  have h2 : e &&& 3 < 2 ^ 5 := Nat.lt_of_le_of_lt (Nat.and_le_right) (by norm_num)
  have := Nat.or_lt_two_pow h1 h2
  simpa using this

/-- Claim C2: an ECR write stores mode field 0 (SPP), passes bits 2-4 of
the written byte through, preserves the FIFO empty/full bits 0-1; a second
identical write leaves the whole port state unchanged; and the ECR read
never shows a mode other than SPP after an ECR write. -/
theorem C2_ecr_write_forces_spp (pp : ParallelPort) (p q : ParallelBusPort) (v : Nat) :
    ((parallel_write_ecp pp 2 v p).1.ecr >>> ECR_MODE_SHIFT) &&& 7 = PP_MODE_SPP ∧
    (parallel_write_ecp pp 2 v p).1.ecr &&& 0x04 = v &&& 0x04 ∧
    (parallel_write_ecp pp 2 v p).1.ecr &&& 0x08 = v &&& 0x08 ∧
    (parallel_write_ecp pp 2 v p).1.ecr &&& 0x10 = v &&& 0x10 ∧
    (parallel_write_ecp pp 2 v p).1.ecr &&& 0x03 = pp.ecr &&& 0x03 ∧
    (parallel_write_ecp (parallel_write_ecp pp 2 v p).1 2 v q).1 =
      (parallel_write_ecp pp 2 v p).1 ∧
    ((parallel_read_ecp (parallel_write_ecp pp 2 v p).1 2).1 >>> ECR_MODE_SHIFT) &&& 7 =
      PP_MODE_SPP := by
  have h1 : (parallel_write_ecp pp 2 v p).1 =
      { pp with ecr := (v &&& 0x1C) ||| (pp.ecr &&& 0x03) } := rfl
  have hmode : (((v &&& 0x1C) ||| (pp.ecr &&& 0x03)) >>> ECR_MODE_SHIFT) &&& 7 = 0 := by
    have hlt := ecr_mix_lt v pp.ecr
    have hdiv : ((v &&& 28) ||| (pp.ecr &&& 3)) >>> 5 = 0 := by
      rw [Nat.shiftRight_eq_div_pow]
      exact Nat.div_eq_of_lt (by simpa using hlt)
    show (((v &&& 28) ||| (pp.ecr &&& 3)) >>> 5) &&& 7 = 0
    rw [hdiv]
    decide
  have hlow : ((v &&& 0x1C) ||| (pp.ecr &&& 0x03)) &&& 0x03 = pp.ecr &&& 0x03 := by
    show ((v &&& 28) ||| (pp.ecr &&& 3)) &&& 3 = pp.ecr &&& 3
    rw [ecr_mix_and]
    have hc1 : (28 : Nat) &&& 3 = 0 := by decide
    have hc2 : (3 : Nat) &&& 3 = 3 := by decide
    rw [hc1, hc2, Nat.and_zero, Nat.zero_or]
  refine ⟨?_, ?_, ?_, ?_, ?_, ?_, ?_⟩
  · rw [h1]
    exact hmode
  · rw [h1]
    show ((v &&& 28) ||| (pp.ecr &&& 3)) &&& 4 = v &&& 4
    rw [ecr_mix_and]
    have hc1 : (28 : Nat) &&& 4 = 4 := by decide
    have hc2 : (3 : Nat) &&& 4 = 0 := by decide
    rw [hc1, hc2, Nat.and_zero, Nat.or_zero]
  · rw [h1]
    show ((v &&& 28) ||| (pp.ecr &&& 3)) &&& 8 = v &&& 8
    rw [ecr_mix_and]
    have hc1 : (28 : Nat) &&& 8 = 8 := by decide
    have hc2 : (3 : Nat) &&& 8 = 0 := by decide
    rw [hc1, hc2, Nat.and_zero, Nat.or_zero]
  · rw [h1]
    show ((v &&& 28) ||| (pp.ecr &&& 3)) &&& 16 = v &&& 16
    rw [ecr_mix_and]
    have hc1 : (28 : Nat) &&& 16 = 16 := by decide
    have hc2 : (3 : Nat) &&& 16 = 0 := by decide
    rw [hc1, hc2, Nat.and_zero, Nat.or_zero]
  · rw [h1]
    exact hlow
  · have h2 : (parallel_write_ecp (parallel_write_ecp pp 2 v p).1 2 v q).1 =
        { (parallel_write_ecp pp 2 v p).1 with
            ecr := (v &&& 0x1C) ||| ((parallel_write_ecp pp 2 v p).1.ecr &&& 0x03) } := rfl
    rw [h2]
    have h3 : (parallel_write_ecp pp 2 v p).1.ecr &&& 0x03 = pp.ecr &&& 0x03 := by
      rw [h1]
      exact hlow
    rw [h3, h1]
  · have h4 : (parallel_read_ecp (parallel_write_ecp pp 2 v p).1 2).1 =
        (parallel_write_ecp pp 2 v p).1.ecr := rfl
    rw [h4, h1]
    exact hmode

/-! ## UART engine (superio.c, 16550A) -/

def LCR_DLAB : Nat := 0x80

def LSR_DR : Nat := 0x01
def LSR_OE : Nat := 0x02
def LSR_PE : Nat := 0x04
def LSR_FE : Nat := 0x08
def LSR_BI : Nat := 0x10
def LSR_THRE : Nat := 0x20
def LSR_TEMT : Nat := 0x40

def IIR_NO_INT : Nat := 0x01
def IIR_RLS : Nat := 0x06
def IIR_RDA : Nat := 0x04
def IIR_THRE : Nat := 0x02
def IIR_MODEM : Nat := 0x00
def IIR_FIFO_EN : Nat := 0xC0

structure UART where
  rbr : Nat
  thr : Nat
  dll : Nat
  dlm : Nat
  ier : Nat
  iir : Nat
  fcr : Nat
  lcr : Nat
  mcr : Nat
  lsr : Nat
  msr : Nat
  scr : Nat
  rx_head : Nat
  rx_tail : Nat
  rx_count : Nat
  tx_head : Nat
  tx_tail : Nat
  tx_count : Nat
  fifo_enabled : Bool
  base_addr : Nat
deriving Repr, DecidableEq

/-- uart_reset in superio.c. -/
def uart_reset (base : Nat) : UART :=
  { rbr := 0, thr := 0, dll := 12, dlm := 0, ier := 0, iir := IIR_NO_INT, fcr := 0,
    lcr := 0, mcr := 0, lsr := 0x60, msr := 0, scr := 0,  -- lsr = LSR_THRE | LSR_TEMT
    rx_head := 0, rx_tail := 0, rx_count := 0, tx_head := 0, tx_tail := 0, tx_count := 0,
    fifo_enabled := false, base_addr := base }

/-- uart_update_iir in superio.c: the interrupt priority encoder. -/
def uart_update_iir (u : UART) : UART :=
  let u1 :=
    if u.ier &&& 0x04 ≠ 0 ∧ u.lsr &&& (LSR_OE ||| LSR_PE ||| LSR_FE ||| LSR_BI) ≠ 0 then
      { u with iir := IIR_RLS }
    else if u.ier &&& 0x01 ≠ 0 ∧ u.lsr &&& LSR_DR ≠ 0 then
      { u with iir := IIR_RDA }
    else if u.ier &&& 0x02 ≠ 0 ∧ u.lsr &&& LSR_THRE ≠ 0 then
      { u with iir := IIR_THRE }
    else if u.ier &&& 0x08 ≠ 0 ∧ u.msr &&& 0x0F ≠ 0 then
      { u with iir := IIR_MODEM }
    else
      { u with iir := IIR_NO_INT }
  if u1.fifo_enabled then { u1 with iir := u1.iir ||| IIR_FIFO_EN } else u1

/-- The pure priority encoding the claim describes: RLS (0x06) when IER
bit2 is set and any of LSR OE/PE/FE/BI; else RDA (0x04) when IER bit0 and
LSR Data-Ready; else THRE (0x02) when IER bit1 and LSR THRE; else Modem
Status (0x00) when IER bit3 and any MSR delta bit (low nibble); else
no-interrupt (0x01); with 0xC0 ORed in when the FIFO is enabled. -/
def iir_encoding (u : UART) : Nat :=
  let base :=
    if u.ier &&& 0x04 ≠ 0 ∧ u.lsr &&& 0x1E ≠ 0 then 0x06
    else if u.ier &&& 0x01 ≠ 0 ∧ u.lsr &&& 0x01 ≠ 0 then 0x04
    else if u.ier &&& 0x02 ≠ 0 ∧ u.lsr &&& 0x20 ≠ 0 then 0x02
    else if u.ier &&& 0x08 ≠ 0 ∧ u.msr &&& 0x0F ≠ 0 then 0x00
    else 0x01
  if u.fifo_enabled then base ||| 0xC0 else base

theorem uart_update_iir_spec (u : UART) :
    uart_update_iir u = { u with iir := iir_encoding u } := by
  unfold uart_update_iir iir_encoding
  have herr : LSR_OE ||| LSR_PE ||| LSR_FE ||| LSR_BI = 30 := by decide
  rw [herr]
  simp only [LSR_DR, LSR_THRE, IIR_RLS, IIR_RDA, IIR_THRE, IIR_MODEM, IIR_NO_INT, IIR_FIFO_EN]
  split_ifs <;> rfl

theorem iir_encoding_ignores_iir (u : UART) (v : Nat) :
    iir_encoding { u with iir := v } = iir_encoding u := by
  unfold iir_encoding
  rfl

theorem uart_update_iir_consistent (u : UART) :
    (uart_update_iir u).iir = iir_encoding (uart_update_iir u) := by
  rw [uart_update_iir_spec]
  exact (iir_encoding_ignores_iir u (iir_encoding u)).symm

/-! ## Serial bus (serial.c), modelled like the parallel one. -/

structure SerialDeviceSpec where
  on_write_present : Bool
  on_ctrl_present : Bool
  get_status_present : Bool
  on_reset_present : Bool
  status_val : Nat
deriving Repr, DecidableEq

inductive SerEvent where
  | tx (b : Nat)
  | ctrl (c : Nat)
deriving Repr, DecidableEq

structure SerialBusPort where
  control : Nat
  status : Nat
  has_device : Bool
  device : SerialDeviceSpec
deriving Repr, DecidableEq

def serial_bus_port_reset : SerialBusPort :=
  { control := 0, status := 0, has_device := false,
    device := { on_write_present := false, on_ctrl_present := false,
                get_status_present := false, on_reset_present := false, status_val := 0 } }

/-- serial_bus_write_data: forwards the byte to the device, no bus state
change. -/
def serial_bus_write_data (p : SerialBusPort) (d : Nat) : List SerEvent :=
  if p.has_device ∧ p.device.on_write_present then [SerEvent.tx d] else []

/-- serial_bus_set_ctrl: latch the control byte and notify the device. -/
def serial_bus_set_ctrl (p : SerialBusPort) (ctrl : Nat) : SerialBusPort × List SerEvent :=
  ({ p with control := ctrl },
   if p.has_device ∧ p.device.on_ctrl_present then [SerEvent.ctrl ctrl] else [])

/-- serial_bus_get_status: refresh the stored status from the device if one
answers, then return it. -/
def serial_bus_get_status (p : SerialBusPort) : Nat × SerialBusPort :=
  let p1 := if p.has_device ∧ p.device.get_status_present
            then { p with status := p.device.status_val } else p
  (p1.status, p1)

/-- uart_write in superio.c. -/
def uart_write (u : UART) (offset val : Nat) (sp : SerialBusPort) :
    UART × SerialBusPort × List SerEvent :=
  if offset = 0 then
    if u.lcr &&& LCR_DLAB ≠ 0 then
      ({ u with dll := val }, sp, [])
    else
      let evs := serial_bus_write_data sp val
      let u1 := { u with lsr := ((u.lsr &&& 0xDF) &&& 0xBF) ||| LSR_THRE ||| LSR_TEMT }
      (uart_update_iir u1, sp, evs)
  else if offset = 1 then
    if u.lcr &&& LCR_DLAB ≠ 0 then
      ({ u with dlm := val }, sp, [])
    else
      (uart_update_iir { u with ier := val &&& 0x0F }, sp, [])
  else if offset = 2 then
    let u1 := { u with fcr := val, fifo_enabled := decide (val &&& 0x01 ≠ 0) }
    let u2 := if val &&& 0x02 ≠ 0 then { u1 with rx_head := 0, rx_tail := 0, rx_count := 0 }
              else u1
    let u3 := if val &&& 0x04 ≠ 0 then { u2 with tx_head := 0, tx_tail := 0, tx_count := 0 }
              else u2
    (uart_update_iir u3, sp, [])
  else if offset = 3 then
    ({ u with lcr := val }, sp, [])
  else if offset = 4 then
    let u1 := { u with mcr := val &&& 0x1F }
    let r := serial_bus_set_ctrl sp (val &&& 0x0F)
    let u2 :=
      if val &&& 0x10 ≠ 0 then
        { u1 with msr := ((val &&& 0x01) <<< 4) ||| ((val &&& 0x02) <<< 3) |||
                         ((val &&& 0x04) <<< 4) ||| ((val &&& 0x08) <<< 4) }
      else u1
    (u2, r.1, r.2)
  else if offset = 7 then
    ({ u with scr := val }, sp, [])
  else
    (u, sp, [])

/-- uart_read in superio.c (reads have the 16550A clear-on-read side
effects). -/
def uart_read (u : UART) (offset : Nat) (sp : SerialBusPort) : Nat × UART × SerialBusPort :=
  if offset = 0 then
    if u.lcr &&& LCR_DLAB ≠ 0 then (u.dll, u, sp)
    else (u.rbr, uart_update_iir { u with lsr := u.lsr &&& 0xFE }, sp)
  else if offset = 1 then
    if u.lcr &&& LCR_DLAB ≠ 0 then (u.dlm, u, sp) else (u.ier, u, sp)
  else if offset = 2 then
    let u1 :=
      if u.iir &&& 0x0E = IIR_THRE then
        let u2 := { u with iir := IIR_NO_INT }
        if u2.fifo_enabled then { u2 with iir := u2.iir ||| IIR_FIFO_EN } else u2
      else u
    (u.iir, u1, sp)
  else if offset = 3 then
    (u.lcr, u, sp)
  else if offset = 4 then
    (u.mcr, u, sp)
  else if offset = 5 then
    (u.lsr, uart_update_iir { u with lsr := u.lsr &&& 0xE1 }, sp)
  else if offset = 6 then
    if u.mcr &&& 0x10 ≠ 0 then
      (u.msr, uart_update_iir { u with msr := u.msr &&& 0xF0 }, sp)
    else
      let r := serial_bus_get_status sp
      (r.1, uart_update_iir { u with msr := u.msr &&& 0xF0 }, r.2)
  else if offset = 7 then
    (u.scr, u, sp)
  else
    (0, u, sp)

/-- superio_serial_rx (superio.c), the per-UART part: store the byte in
RBR, set LSR Data-Ready, recompute IIR.  (The COM1 FIQ side effect lives
at machine level.) -/
def superio_serial_rx_uart (u : UART) (d : Nat) : UART :=
  uart_update_iir { u with rbr := d, lsr := u.lsr ||| LSR_DR }

/-- superio_serial_update_msr (superio.c), per-UART part: delta bits are
the XOR of old and new status nibbles. -/
def superio_serial_update_msr_uart (u : UART) (status : Nat) : UART :=
  let old_status := u.msr &&& 0xF0
  let delta := (old_status ^^^ status) >>> 4
  uart_update_iir { u with msr := (status &&& 0xF0) ||| (u.msr &&& 0x0F) ||| delta }

/-- The UART state reached from reset by: IER := 0x08 (modem interrupt
enabled, DLAB clear), a device status change raising a delta bit (CTS goes
high), then MCR := 0x10 (loopback on).  The loopback write rewrites MSR
from the MCR outputs without recomputing IIR. -/
def C1_state : UART :=
  (uart_write
    (superio_serial_update_msr_uart
      (uart_write (uart_reset 0x3F8) 1 0x08 serial_bus_port_reset).1 0x10)
    4 0x10 serial_bus_port_reset).1

/-- Claim C1, counterexample: after the MCR (loopback) register write of
C1_state, the stored IIR is 0x00 (Modem Status) while the priority
encoding of the current IER/LSR/MSR state is 0x01 (no interrupt) - the
stored IIR is stale, refuting the claim for that register write. -/
theorem C1_counterexample :
    (C1_state.iir = iir_encoding C1_state) = False := by
  decide

/-- Claim C1 (amended): the stored IIR equals the priority encoding after
every UART register write that reaches the recompute (a THR write with
DLAB clear, an IER write with DLAB clear, or an FCR write) and after every
RX-injection or modem-status-update bus event; an MCR write with the
loopback bit set rewrites MSR without recomputing IIR and can leave the
stored IIR stale (as can the architecturally required IIR read-clear),
so the claim's "after every register write" does not hold there. -/
theorem C1_iir_priority_encoding (u : UART) (sp : SerialBusPort) (off val d s : Nat)
    (hoff : ((off = 0 ∨ off = 1) ∧ u.lcr &&& LCR_DLAB = 0) ∨ off = 2) :
    (uart_write u off val sp).1.iir = iir_encoding (uart_write u off val sp).1 ∧
    (superio_serial_rx_uart u d).iir = iir_encoding (superio_serial_rx_uart u d) ∧
    (superio_serial_update_msr_uart u s).iir =
      iir_encoding (superio_serial_update_msr_uart u s) := by
  refine ⟨?_, uart_update_iir_consistent _, uart_update_iir_consistent _⟩
  rcases hoff with ⟨h01, hdlab⟩ | h2
  · rcases h01 with h0 | h1
    · subst h0
      unfold uart_write
      simp only [if_pos rfl, hdlab]
      norm_num
      exact uart_update_iir_consistent _
    · subst h1
      unfold uart_write
      simp only [hdlab]
      norm_num
      exact uart_update_iir_consistent _
  · subst h2
    unfold uart_write
    norm_num
    exact uart_update_iir_consistent _

/-- Witness for C1_iir_priority_encoding: an IER write on the reset UART. -/
theorem C1_iir_priority_encoding_witness :
    (uart_write (uart_reset 0x3F8) 1 0x03 serial_bus_port_reset).1.iir =
      iir_encoding (uart_write (uart_reset 0x3F8) 1 0x03 serial_bus_port_reset).1 ∧
    (superio_serial_rx_uart (uart_reset 0x3F8) 0x4B).iir =
      iir_encoding (superio_serial_rx_uart (uart_reset 0x3F8) 0x4B) ∧
    (superio_serial_update_msr_uart (uart_reset 0x3F8) 0x10).iir =
      iir_encoding (superio_serial_update_msr_uart (uart_reset 0x3F8) 0x10) :=
  C1_iir_priority_encoding (uart_reset 0x3F8) serial_bus_port_reset 1 0x03 0x4B 0x10
    (Or.inl ⟨Or.inr rfl, by decide⟩)

/-! ## Chip-level state and the top-level dispatcher (superio.c) -/

inductive SuperIOType where
  | FDC37C665GT
  | FDC37C672
deriving Repr, DecidableEq

/-- Calls into sibling chips and attached devices, recorded as events. -/
inductive ExtEvent where
  | fdc_write (port v : Nat)
  | fdc_read (port : Nat)
  | ide_write (port v : Nat)
  | ide_read (port : Nat)
  | kbd_data_write (v : Nat)
  | kbd_cmd_write (v : Nat)
  | kbd_data_read
  | kbd_status_read
  | pdev (port : Nat) (e : DevEvent)
  | sdev (port : Nat) (e : SerEvent)
deriving Repr, DecidableEq

/-- A byte produced by this core, or a read forwarded to a sibling chip
whose value lives outside the shown sources. -/
inductive ReadVal where
  | val (v : Nat)
  | ext (e : ExtEvent)
deriving Repr, DecidableEq

/-- All mutable chip state of superio.c, parallel.c and serial.c, plus the
IOMD interrupt bits this core touches. -/
structure Machine where
  super_type : SuperIOType
  configmode : Nat
  configreg : Nat
  configregs665 : List Nat
  configregs672 : List Nat
  gp_index : Nat
  gp_regs : List Nat
  lpt1 : ParallelPort
  lpt2 : ParallelPort
  com1 : UART
  com2 : UART
  pbus1 : ParallelBusPort
  pbus2 : ParallelBusPort
  sbus1 : SerialBusPort
  sbus2 : SerialBusPort
  iomd : IomdState
deriving Repr, DecidableEq

/-- superio_smi_update (672): recompute the SMI IRQB bit from gp_regs. -/
def superio_smi_update (m : Machine) : Machine :=
  let b := decide ((m.gp_regs.getD 0x0e 0) &&& (m.gp_regs.getD 0x0c 0) ≠ 0 ∨
    (m.gp_regs.getD 0x0f 0) &&& (m.gp_regs.getD 0x0d 0) ≠ 0)
  { m with iomd := { m.iomd with irqb_smi := b } }

/-- superio_config_reg_write: on the 665GT all cases 0..6 and the default
store into configregs665 (the default masks the index to 4 bits); on the
672, indexes 0xb4/0xb5 alias into the GP register array. -/
def superio_config_reg_write (m : Machine) (reg val : Nat) : Machine :=
  if m.super_type = SuperIOType.FDC37C665GT then
    if reg ≤ 6 then { m with configregs665 := m.configregs665.set reg val }
    else { m with configregs665 := m.configregs665.set (reg &&& 0xF) val }
  else
    if reg = 0xb4 then { m with gp_regs := m.gp_regs.set 0x0c val }
    else if reg = 0xb5 then { m with gp_regs := m.gp_regs.set 0x0d val }
    else { m with configregs672 := m.configregs672.set reg val }

/-- superio_reset: datasheet defaults.  The C code rewrites all 16 bytes of
configregs665 but only 5 entries of configregs672, and does not touch the
bus-port state (parallel_bus_init is separate); fdc_reset touches no state
modelled here. -/
def superio_reset (t : SuperIOType) (m : Machine) : Machine :=
  { m with
    super_type := t
    configmode := 0
    configreg := 0
    lpt1 := parallel_reset 0x378
    lpt2 := parallel_reset 0x278
    com1 := uart_reset 0x3F8
    com2 := uart_reset 0x2F8
    gp_index := 0
    gp_regs := List.replicate 16 0
    configregs665 := [0x3b, 0x9e, 0xdc, 0x78, 0x00, 0x00, 0xff, 0x00,
                      0x00, 0x00, 0x00, 0x00, 0x00, 0x65, 0x02, 0x00]
    configregs672 := ((((m.configregs672.set 0x03 0x03).set 0x20 0x40).set 0x24
                        0x04).set 0x26 0xf0).set 0x27 0x03 }

/-- Machine state at emulator startup: zeroed static storage, then
parallel_bus_init, serial_bus_init and superio_reset. -/
def machine_init (t : SuperIOType) : Machine :=
  superio_reset t
    { super_type := t, configmode := 0, configreg := 0,
      configregs665 := List.replicate 16 0, configregs672 := List.replicate 256 0,
      gp_index := 0, gp_regs := List.replicate 16 0,
      lpt1 := parallel_reset 0x378, lpt2 := parallel_reset 0x278,
      com1 := uart_reset 0x3F8, com2 := uart_reset 0x2F8,
      pbus1 := parallel_bus_port_reset, pbus2 := parallel_bus_port_reset,
      sbus1 := serial_bus_port_reset, sbus2 := serial_bus_port_reset,
      iomd := { irqa_parallel := false, fiq_serial := false, irqb_smi := false } }

/-- The port-range part of superio_write, reached when the configuration
state machine swallowed nothing (C control flow: every earlier block ends
in return). -/
def superio_write_ranges (m : Machine) (port byte : Nat) : Machine × List ExtEvent :=
  if m.super_type = SuperIOType.FDC37C672 ∧ port = 0x60 then
    (m, [ExtEvent.kbd_data_write byte])
  else if m.super_type = SuperIOType.FDC37C672 ∧ port = 0x64 then
    (m, [ExtEvent.kbd_cmd_write byte])
  else if m.super_type = SuperIOType.FDC37C672 ∧ port = 0xea then
    ({ m with gp_index := byte &&& 0xF }, [])
  else if m.super_type = SuperIOType.FDC37C672 ∧ port = 0xeb then
    (superio_smi_update { m with gp_regs := m.gp_regs.set m.gp_index byte }, [])
  else if (0x1f0 ≤ port ∧ port ≤ 0x1f7) ∨ port = 0x3f6 then
    if m.super_type = SuperIOType.FDC37C665GT then (m, [ExtEvent.ide_write port byte])
    else (m, [])
  else if 0x278 ≤ port ∧ port ≤ 0x27f then
    let r := parallel_write m.lpt2 (port - 0x278) byte m.pbus2
    ({ m with lpt2 := r.1, pbus2 := r.2.1 }, r.2.2.map (ExtEvent.pdev 1))
  else if 0x378 ≤ port ∧ port ≤ 0x37f then
    let r := parallel_write m.lpt1 (port - 0x378) byte m.pbus1
    ({ m with lpt1 := r.1, pbus1 := r.2.1 }, r.2.2.map (ExtEvent.pdev 0))
  else if 0x678 ≤ port ∧ port ≤ 0x67f then
    let r := parallel_write_ecp m.lpt2 (port - 0x678) byte m.pbus2
    ({ m with lpt2 := r.1, pbus2 := r.2.1 }, r.2.2.map (ExtEvent.pdev 1))
  else if 0x778 ≤ port ∧ port ≤ 0x77f then
    let r := parallel_write_ecp m.lpt1 (port - 0x778) byte m.pbus1
    ({ m with lpt1 := r.1, pbus1 := r.2.1 }, r.2.2.map (ExtEvent.pdev 0))
  else if 0x3f0 ≤ port ∧ port ≤ 0x3f7 then
    (m, [ExtEvent.fdc_write port byte])
  else if 0x3f8 ≤ port ∧ port ≤ 0x3ff then
    let r := uart_write m.com1 (port - 0x3f8) byte m.sbus1
    let m1 := { m with com1 := r.1, sbus1 := r.2.1 }
    let m2 := if port = 0x3f9 ∧ byte &&& 2 ≠ 0 then
        { m1 with iomd := { m1.iomd with fiq_serial := true } }
      else m1
    (m2, r.2.2.map (ExtEvent.sdev 0))
  else if 0x2f8 ≤ port ∧ port ≤ 0x2ff then
    let r := uart_write m.com2 (port - 0x2f8) byte m.sbus2
    ({ m with com2 := r.1, sbus2 := r.2.1 }, r.2.2.map (ExtEvent.sdev 1))
  else
    (m, [])

/-- superio_write: address to I/O port conversion, configuration-magic
handling, then range dispatch.  The C code's first block (configmode not
yet Configuration) either consumes a 0x55 magic write with a return, or
falls through with configmode forced back to Normal; the second block
swallows every write while in Configuration mode. -/
def superio_write (m : Machine) (addr val : Nat) : Machine × List ExtEvent :=
  let port := (addr >>> 2) &&& 0x7FF
  let byte := val % 256
  if m.configmode = 2 then
    if port = 0x3f0 then
      if byte = 0xaa then ({ m with configmode := 0 }, [])
      else ({ m with configreg :=
                if m.super_type = SuperIOType.FDC37C665GT then byte &&& 0xF else byte }, [])
    else if port = 0x3f1 then
      (superio_config_reg_write m m.configreg byte, [])
    else (m, [])
  else if port = 0x3f0 ∧ byte = 0x55 then
    if m.super_type = SuperIOType.FDC37C665GT then
      if m.configmode = 0 then ({ m with configmode := 1 }, [])
      else if m.configmode = 1 then ({ m with configmode := 2 }, [])
      else (m, [])
    else ({ m with configmode := 2 }, [])
  else
    superio_write_ranges { m with configmode := 0 } port byte

/-- superio_read: address to I/O port conversion and range dispatch. -/
def superio_read (m : Machine) (addr : Nat) : ReadVal × Machine :=
  let port := (addr >>> 2) &&& 0x7FF
  if m.configmode = 2 ∧ port = 0x3f1 then
    if m.super_type = SuperIOType.FDC37C672 ∧ m.configreg = 0xb4 then
      (ReadVal.val (m.gp_regs.getD 0x0c 0), m)
    else if m.super_type = SuperIOType.FDC37C672 ∧ m.configreg = 0xb5 then
      (ReadVal.val (m.gp_regs.getD 0x0d 0), m)
    else if m.super_type = SuperIOType.FDC37C672 ∧ m.configreg = 0xb6 then
      (ReadVal.val (m.gp_regs.getD 0x0e 0), m)
    else if m.super_type = SuperIOType.FDC37C672 ∧ m.configreg = 0xb7 then
      (ReadVal.val (m.gp_regs.getD 0x0f 0), m)
    else if m.super_type = SuperIOType.FDC37C665GT then
      (ReadVal.val (m.configregs665.getD m.configreg 0), m)
    else
      (ReadVal.val (m.configregs672.getD m.configreg 0), m)
  else if m.super_type = SuperIOType.FDC37C672 ∧ port = 0x60 then
    (ReadVal.ext ExtEvent.kbd_data_read, m)
  else if m.super_type = SuperIOType.FDC37C672 ∧ port = 0x64 then
    (ReadVal.ext ExtEvent.kbd_status_read, m)
  else if m.super_type = SuperIOType.FDC37C672 ∧ port = 0xea then
    (ReadVal.val m.gp_index, m)
  else if m.super_type = SuperIOType.FDC37C672 ∧ port = 0xeb then
    (ReadVal.val (m.gp_regs.getD m.gp_index 0), m)
  else if (0x1f0 ≤ port ∧ port ≤ 0x1f7) ∨ port = 0x3f6 then
    if m.super_type = SuperIOType.FDC37C665GT then (ReadVal.ext (ExtEvent.ide_read port), m)
    else (ReadVal.val 0xFF, m)
  else if 0x278 ≤ port ∧ port ≤ 0x27f then
    let r := parallel_read m.lpt2 (port - 0x278) m.pbus2
    (ReadVal.val r.1, { m with lpt2 := r.2.1, pbus2 := r.2.2 })
  else if 0x378 ≤ port ∧ port ≤ 0x37f then
    let r := parallel_read m.lpt1 (port - 0x378) m.pbus1
    (ReadVal.val r.1, { m with lpt1 := r.2.1, pbus1 := r.2.2 })
  else if 0x678 ≤ port ∧ port ≤ 0x67f then
    let r := parallel_read_ecp m.lpt2 (port - 0x678)
    (ReadVal.val r.1, { m with lpt2 := r.2 })
  else if 0x778 ≤ port ∧ port ≤ 0x77f then
    let r := parallel_read_ecp m.lpt1 (port - 0x778)
    (ReadVal.val r.1, { m with lpt1 := r.2 })
  else if 0x3f0 ≤ port ∧ port ≤ 0x3f7 then
    (ReadVal.ext (ExtEvent.fdc_read port), m)
  else if 0x3f8 ≤ port ∧ port ≤ 0x3ff then
    let m1 := if port = 0x3fa then { m with iomd := { m.iomd with fiq_serial := false } }
              else m
    let r := uart_read m1.com1 (port - 0x3f8) m1.sbus1
    (ReadVal.val r.1, { m1 with com1 := r.2.1, sbus1 := r.2.2 })
  else if 0x2f8 ≤ port ∧ port ≤ 0x2ff then
    let r := uart_read m.com2 (port - 0x2f8) m.sbus2
    (ReadVal.val r.1, { m with com2 := r.2.1, sbus2 := r.2.2 })
  else
    (ReadVal.val 0xFF, m)

/-- Claim C7: on the 665GT, two 0x55 writes to the magic port 0x3F0 walk
the configuration state machine Normal (0) to Intermediate (1) to
Configuration (2); a write of 6 to the index port selects configuration
register 6; a write to the data port 0x3F1 stores the byte into
configregs665[6] (the floppy-drive-type register); a 0xAA write to the
magic port returns to Normal.  Addresses are memory-mapped: port p lives
at address p <<< 2. -/
theorem C7_config_magic_sequence (m : Machine) (v : Nat) :
    (superio_write (superio_reset SuperIOType.FDC37C665GT m) 0xFC0 0x55).1.configmode = 1 ∧
    (superio_write (superio_write (superio_reset SuperIOType.FDC37C665GT m) 0xFC0 0x55).1
        0xFC0 0x55).1.configmode = 2 ∧
    (superio_write (superio_write (superio_write (superio_reset SuperIOType.FDC37C665GT m)
        0xFC0 0x55).1 0xFC0 0x55).1 0xFC0 6).1.configreg = 6 ∧
    (superio_write (superio_write (superio_write (superio_reset SuperIOType.FDC37C665GT m)
        0xFC0 0x55).1 0xFC0 0x55).1 0xFC0 6).1.configmode = 2 ∧
    (superio_write (superio_write (superio_write (superio_write
        (superio_reset SuperIOType.FDC37C665GT m)
        0xFC0 0x55).1 0xFC0 0x55).1 0xFC0 6).1 0xFC4 v).1.configregs665.getD 6 0 = v % 256 ∧
    (superio_write (superio_write (superio_write (superio_write (superio_write
        (superio_reset SuperIOType.FDC37C665GT m)
        0xFC0 0x55).1 0xFC0 0x55).1 0xFC0 6).1 0xFC4 v).1 0xFC0 0xAA).1.configmode = 0 :=
  ⟨rfl, rfl, rfl, rfl, rfl, rfl⟩

/-- Bytes delivered to the LPT1 device's on_write callback, extracted from
a dispatcher event trace. -/
def lpt1WriteBytes (evs : List ExtEvent) : List Nat :=
  evs.filterMap fun e =>
    match e with
    | ExtEvent.pdev 0 (DevEvent.write b) => some b
    | _ => none

/-- Reset machine with a device attached to LPT1 whose on_write callback is
present (parallel_bus_attach copies the descriptor and sets has_device). -/
def C4_machine (c s r : Bool) (sv : Nat) : Machine :=
  { machine_init SuperIOType.FDC37C665GT with
    pbus1 := { parallel_bus_port_reset with
      has_device := true
      device := { on_write_present := true, on_ctrl_present := c,
                  get_status_present := s, on_reset_present := r, status_val := sv } } }

/-- Claim C4, counterexample: with the control sequence exactly as the
claim states it - data := 0x41, control := 0x05, control := 0x01 - the
device's on_write callback fires ZERO times, not once: 0x01 is the STROBE
bit (nINIT is 0x04), so strobe stays high through both control writes and
no falling edge is ever seen (the third write also drops nInit, resetting
the device).  LPT1 data register is port 0x378 (address 0xDE0), control is
port 0x37A (address 0xDE8). -/
theorem C4_counterexample :
    lpt1WriteBytes
      ((superio_write (C4_machine true true true 0xD8) 0xDE0 0x41).2 ++
       (superio_write (superio_write (C4_machine true true true 0xD8) 0xDE0 0x41).1
          0xDE8 0x05).2 ++
       (superio_write (superio_write (superio_write (C4_machine true true true 0xD8)
          0xDE0 0x41).1 0xDE8 0x05).1 0xDE8 0x01).2) = [] ∧
    (lpt1WriteBytes
      ((superio_write (C4_machine true true true 0xD8) 0xDE0 0x41).2 ++
       (superio_write (superio_write (C4_machine true true true 0xD8) 0xDE0 0x41).1
          0xDE8 0x05).2 ++
       (superio_write (superio_write (superio_write (C4_machine true true true 0xD8)
          0xDE0 0x41).1 0xDE8 0x05).1 0xDE8 0x01).2) = [0x41]) = False := by
  constructor
  · rfl
  · decide

/-- Bytes delivered to a device on_write callback in an engine-level event
trace. -/
def devWriteBytes (evs : List DevEvent) : List Nat :=
  evs.filterMap fun e =>
    match e with
    | DevEvent.write b => some b
    | _ => none

/-- Bus port with an attached device whose on_write callback is present;
the other callbacks and the status byte it reports are parameters. -/
def C4_dev (c s r : Bool) (sv : Nat) : ParallelDeviceSpec :=
  { on_write_present := true, on_ctrl_present := c,
    get_status_present := s, on_reset_present := r, status_val := sv }

def C4_bus (c s r : Bool) (sv : Nat) : ParallelBusPort :=
  { parallel_bus_port_reset with has_device := true, device := C4_dev c s r sv }

/-- Claim C4 (amended): writing data 0x41, then control 0x05 (STROBE set,
nINIT high), then control 0x04 (nINIT only, strobe actually cleared -
the claim wrote 0x01, but 0x01 is the STROBE bit) delivers the byte 0x41
to the attached device's on_write callback exactly once over the whole
sequence: the port engine's falling-edge handshake fires it, and the bus
layer's own edge detector does not fire a second time because the
handshake already left the bus strobe low.  Stated through the dispatcher
(LPT1 data at address 0xDE0, control at 0xDE8) for every combination of
optional device callbacks with the default status byte, and at the port
engine level for arbitrary device status bytes as well. -/
theorem C4_single_delivery :
    (∀ c s r : Bool,
      lpt1WriteBytes
        ((superio_write (C4_machine c s r 0xD8) 0xDE0 0x41).2 ++
         (superio_write (superio_write (C4_machine c s r 0xD8) 0xDE0 0x41).1 0xDE8 0x05).2 ++
         (superio_write (superio_write (superio_write (C4_machine c s r 0xD8) 0xDE0 0x41).1
            0xDE8 0x05).1 0xDE8 0x04).2) = [0x41]) ∧
    (∀ (c s r : Bool) (sv : Nat),
      devWriteBytes
        ((parallel_write (parallel_reset 0x378) 0 0x41 (C4_bus c s r sv)).2.2 ++
         (parallel_write (parallel_write (parallel_reset 0x378) 0 0x41 (C4_bus c s r sv)).1 2 0x05
            (parallel_write (parallel_reset 0x378) 0 0x41 (C4_bus c s r sv)).2.1).2.2 ++
         (parallel_write
            (parallel_write (parallel_write (parallel_reset 0x378) 0 0x41 (C4_bus c s r sv)).1
              2 0x05 (parallel_write (parallel_reset 0x378) 0 0x41 (C4_bus c s r sv)).2.1).1
            2 0x04
            (parallel_write (parallel_write (parallel_reset 0x378) 0 0x41 (C4_bus c s r sv)).1
              2 0x05
              (parallel_write (parallel_reset 0x378) 0 0x41 (C4_bus c s r sv)).2.1).2.1).2.2)
        = [0x41]) := by
  constructor
  · intro c s r
    cases c <;> cases s <;> cases r <;> decide
  · intro c s r sv
    cases c <;> cases s <;> cases r <;>
      simp [parallel_write, parallel_reset, parallel_bus_port_reset, C4_bus,
        parallel_bus_write_data, parallel_bus_set_ctrl, parallel_bus_strobe,
        parallel_bus_get_status, parallel_do_handshake, devWriteBytes, C4_dev,
        PP_MODE_FIFO, PP_MODE_ECP, PP_MODE_EPP, PP_MODE_PS2, PP_CTRL_STROBE, PP_CTRL_BIDI,
        PARALLEL_CTRL_STROBE, PARALLEL_CTRL_INIT, PARALLEL_CTRL_IRQEN, ECR_MODE_SHIFT]

/-- Claim C8, counterexample: the stored status of a device-less port is
NOT returned unconditionally - a device-originated bus call
(parallel_bus_device_status, here with byte 0x00) overwrites it even
though no device is attached, and the next read of the LPT1 status
register (port 0x379, address 0xDE4) returns 0x00, not 0xD8. -/
theorem C8_counterexample :
    (superio_read { machine_init SuperIOType.FDC37C665GT with
        pbus1 := parallel_bus_device_status
          (machine_init SuperIOType.FDC37C665GT).pbus1 0x00 } 0xDE4).1 = ReadVal.val 0x00 ∧
    ((superio_read { machine_init SuperIOType.FDC37C665GT with
        pbus1 := parallel_bus_device_status
          (machine_init SuperIOType.FDC37C665GT).pbus1 0x00 } 0xDE4).1
      = ReadVal.val 0xD8) = False := by
  constructor
  · decide
  · decide

/-- Claim C8 (amended): with no device attached to LPT1, a read of the
LPT1 status register returns the stored default status word 0xD8
(nBUSY|nACK|SELECT|nERROR) provided the stored status still holds its
reset default and no ACK latch is pending; this is regardless of prior
host-originated bus traffic, since none of the host-side bus operations
(write_data, strobe, set_ctrl, read_data, get_status itself) changes the
stored status of a device-less port.  Only the device-originated entry
points (device_status, device_ack) can disturb it. -/
theorem C8_default_status (m : Machine)
    (hdev : m.pbus1.has_device = false)
    (hst : m.pbus1.status = PARALLEL_STAT_DEFAULT)
    (hack : m.pbus1.ack_pending = 0) :
    (superio_read m 0xDE4).1 = ReadVal.val 0xD8 ∧
    (∀ d, (parallel_bus_write_data m.pbus1 d).status = PARALLEL_STAT_DEFAULT) ∧
    (∀ b, (parallel_bus_strobe m.pbus1 b).1.status = PARALLEL_STAT_DEFAULT) ∧
    (∀ c, (parallel_bus_set_ctrl m.pbus1 c).1.status = PARALLEL_STAT_DEFAULT) ∧
    (parallel_bus_get_status m.pbus1).1 = PARALLEL_STAT_DEFAULT ∧
    (parallel_bus_get_status m.pbus1).2 = m.pbus1 := by
  refine ⟨?_, ?_, ?_, ?_, ?_, ?_⟩
  · have hport : (889 : Nat) &&& 2047 = 889 := by decide
    simp [superio_read, parallel_read, parallel_bus_get_status, hdev, hst, hack, hport,
      PARALLEL_STAT_DEFAULT]
  · intro d
    simpa [parallel_bus_write_data] using hst
  · intro b
    simpa [parallel_bus_strobe] using hst
  · intro c
    unfold parallel_bus_set_ctrl parallel_bus_strobe
    split_ifs <;> simpa using hst
  · simp [parallel_bus_get_status, hdev, hst, hack]
  · simp [parallel_bus_get_status, hdev, hack]

/-- Witness for C8_default_status at the reset machine. -/
theorem C8_default_status_witness :
    (superio_read (machine_init SuperIOType.FDC37C665GT) 0xDE4).1 = ReadVal.val 0xD8 ∧
    (∀ d, (parallel_bus_write_data (machine_init SuperIOType.FDC37C665GT).pbus1 d).status =
      PARALLEL_STAT_DEFAULT) ∧
    (∀ b, (parallel_bus_strobe (machine_init SuperIOType.FDC37C665GT).pbus1 b).1.status =
      PARALLEL_STAT_DEFAULT) ∧
    (∀ c, (parallel_bus_set_ctrl (machine_init SuperIOType.FDC37C665GT).pbus1 c).1.status =
      PARALLEL_STAT_DEFAULT) ∧
    (parallel_bus_get_status (machine_init SuperIOType.FDC37C665GT).pbus1).1 =
      PARALLEL_STAT_DEFAULT ∧
    (parallel_bus_get_status (machine_init SuperIOType.FDC37C665GT).pbus1).2 =
      (machine_init SuperIOType.FDC37C665GT).pbus1 :=
  C8_default_status (machine_init SuperIOType.FDC37C665GT) rfl rfl rfl

/-- The I/O port ranges the dispatcher routes somewhere (for the given
chip variant): the 672-only keyboard/GP ports, IDE, the two parallel
base and ECP windows, the FDC range (which contains the configuration
magic and data ports 0x3F0/0x3F1), and the two serial ranges. -/
def superio_port_handled (t : SuperIOType) (port : Nat) : Prop :=
  (t = SuperIOType.FDC37C672 ∧ (port = 0x60 ∨ port = 0x64 ∨ port = 0xea ∨ port = 0xeb)) ∨
  ((0x1f0 ≤ port ∧ port ≤ 0x1f7) ∨ port = 0x3f6) ∨
  (0x278 ≤ port ∧ port ≤ 0x27f) ∨
  (0x378 ≤ port ∧ port ≤ 0x37f) ∨
  (0x678 ≤ port ∧ port ≤ 0x67f) ∨
  (0x778 ≤ port ∧ port ≤ 0x77f) ∨
  (0x3f0 ≤ port ∧ port ≤ 0x3f7) ∨
  (0x3f8 ≤ port ∧ port ≤ 0x3ff) ∨
  (0x2f8 ≤ port ∧ port ≤ 0x2ff)

/-- Claim C9, counterexample: a write to an unmatched port is NOT always a
state-preserving no-op.  After one 0x55 magic write (configuration state
Intermediate), a write to unmatched port 0x100 (address 0x400) resets the
configuration state machine to Normal: the machine state changes. -/
theorem C9_counterexample :
    (superio_write (superio_write (machine_init SuperIOType.FDC37C665GT) 0xFC0 0x55).1
        0x400 0x00).1.configmode = 0 ∧
    (superio_write (machine_init SuperIOType.FDC37C665GT) 0xFC0 0x55).1.configmode = 1 ∧
    ((superio_write (superio_write (machine_init SuperIOType.FDC37C665GT) 0xFC0 0x55).1
        0x400 0x00).1 =
      (superio_write (machine_init SuperIOType.FDC37C665GT) 0xFC0 0x55).1) = False := by
  refine ⟨rfl, rfl, by decide⟩

/-- Claim C9 (amended): for every address whose derived port matches no
handled range, superio_read returns 0xFF and changes nothing, and
superio_write emits nothing and changes no state except the configuration
sequence: a pending Intermediate state (configmode 1, after a single 0x55)
falls back to Normal; in Normal and Configuration modes the write is a
pure no-op. -/
theorem C9_unmatched_ports (m : Machine) (addr val : Nat)
    (h : ¬ superio_port_handled m.super_type ((addr >>> 2) &&& 0x7FF)) :
    (superio_read m addr).1 = ReadVal.val 0xFF ∧
    (superio_read m addr).2 = m ∧
    (superio_write m addr val).1 =
      { m with configmode := if m.configmode = 2 then 2 else 0 } ∧
    (superio_write m addr val).2 = ([] : List ExtEvent) := by
  simp only [superio_port_handled, not_or] at h
  obtain ⟨st, cm, cr, c665, c672, gpi, gpr, l1, l2, u1, u2, pb1, pb2, sb1, sb2, io⟩ := m
  simp only at h
  obtain ⟨hkb, ⟨hide1, hide2⟩, h278, h378, h678, h778, hfdc, hcom1, hcom2⟩ := h
  unfold superio_read superio_write superio_write_ranges
  dsimp only
  have n1 : ¬(cm = 2 ∧ (addr >>> 2) &&& 0x7FF = 0x3f1) := by
    rintro ⟨-, h2⟩
    exact hfdc (by omega)
  have n2 : ¬(st = SuperIOType.FDC37C672 ∧ (addr >>> 2) &&& 0x7FF = 0x60) := by
    rintro ⟨h1, h2⟩
    exact hkb ⟨h1, Or.inl h2⟩
  have n3 : ¬(st = SuperIOType.FDC37C672 ∧ (addr >>> 2) &&& 0x7FF = 0x64) := by
    rintro ⟨h1, h2⟩
    exact hkb ⟨h1, Or.inr (Or.inl h2)⟩
  have n4 : ¬(st = SuperIOType.FDC37C672 ∧ (addr >>> 2) &&& 0x7FF = 0xea) := by
    rintro ⟨h1, h2⟩
    exact hkb ⟨h1, Or.inr (Or.inr (Or.inl h2))⟩
  have n5 : ¬(st = SuperIOType.FDC37C672 ∧ (addr >>> 2) &&& 0x7FF = 0xeb) := by
    rintro ⟨h1, h2⟩
    exact hkb ⟨h1, Or.inr (Or.inr (Or.inr h2))⟩
  have n6 : ¬((0x1f0 ≤ (addr >>> 2) &&& 0x7FF ∧ (addr >>> 2) &&& 0x7FF ≤ 0x1f7) ∨
      (addr >>> 2) &&& 0x7FF = 0x3f6) := by
    rintro (hr | hr)
    · exact hide1 hr
    · exact hide2 hr
  have n7 : ¬((addr >>> 2) &&& 0x7FF = 0x3f0 ∧ val % 256 = 0x55) := by
    rintro ⟨h2, -⟩
    exact hfdc (by omega)
  refine ⟨?_, ?_, ?_, ?_⟩
  · rw [if_neg n1, if_neg n2, if_neg n3, if_neg n4, if_neg n5, if_neg n6, if_neg h278,
      if_neg h378, if_neg h678, if_neg h778, if_neg hfdc, if_neg hcom1, if_neg hcom2]
  · rw [if_neg n1, if_neg n2, if_neg n3, if_neg n4, if_neg n5, if_neg n6, if_neg h278,
      if_neg h378, if_neg h678, if_neg h778, if_neg hfdc, if_neg hcom1, if_neg hcom2]
  · by_cases hcm : cm = 2
    · subst hcm
      rw [if_pos rfl]
      have m1 : ¬((addr >>> 2) &&& 0x7FF = 0x3f0) := by
        intro h2
        exact hfdc (by omega)
      have m2 : ¬((addr >>> 2) &&& 0x7FF = 0x3f1) := by
        intro h2
        exact hfdc (by omega)
      rw [if_neg m1, if_neg m2, if_pos rfl]
    · rw [if_neg hcm, if_neg n7]
      try dsimp only
      rw [if_neg n2, if_neg n3, if_neg n4, if_neg n5, if_neg n6, if_neg h278,
        if_neg h378, if_neg h678, if_neg h778, if_neg hfdc, if_neg hcom1, if_neg hcom2,
        if_neg hcm]
  · by_cases hcm : cm = 2
    · subst hcm
      rw [if_pos rfl]
      have m1 : ¬((addr >>> 2) &&& 0x7FF = 0x3f0) := by
        intro h2
        exact hfdc (by omega)
      have m2 : ¬((addr >>> 2) &&& 0x7FF = 0x3f1) := by
        intro h2
        exact hfdc (by omega)
      rw [if_neg m1, if_neg m2]
    · rw [if_neg hcm, if_neg n7]
      try dsimp only
      rw [if_neg n2, if_neg n3, if_neg n4, if_neg n5, if_neg n6, if_neg h278,
        if_neg h378, if_neg h678, if_neg h778, if_neg hfdc, if_neg hcom1, if_neg hcom2]

/-- Witness for C9_unmatched_ports at port 0x100 (address 0x400) of the
reset 665GT machine. -/
theorem C9_unmatched_ports_witness :
    (superio_read (machine_init SuperIOType.FDC37C665GT) 0x400).1 = ReadVal.val 0xFF ∧
    (superio_read (machine_init SuperIOType.FDC37C665GT) 0x400).2 =
      machine_init SuperIOType.FDC37C665GT ∧
    (superio_write (machine_init SuperIOType.FDC37C665GT) 0x400 0x12).1 =
      { machine_init SuperIOType.FDC37C665GT with
        configmode := if (machine_init SuperIOType.FDC37C665GT).configmode = 2 then 2 else 0 } ∧
    (superio_write (machine_init SuperIOType.FDC37C665GT) 0x400 0x12).2 =
      ([] : List ExtEvent) :=
  C9_unmatched_ports (machine_init SuperIOType.FDC37C665GT) 0x400 0x12
    (by unfold superio_port_handled; decide)

/-! ## The auto-draining FIFO invariant (dispatcher level) -/

theorem parallel_drain_fifo_empty (pp : ParallelPort) (p : ParallelBusPort)
    (h : ¬ 0 < pp.fifo_count) :
    parallel_drain_fifo pp p = (pp, p, []) := by
  unfold parallel_drain_fifo
  rw [dif_neg h]

theorem parallel_fifo_pop_empty (pp : ParallelPort) (h : ¬ 0 < pp.fifo_count) :
    parallel_fifo_pop pp = (0, pp) := by
  unfold parallel_fifo_pop
  rw [if_neg h]

theorem pop_sets_empty_bit (pp : ParallelPort) (hpos : 0 < pp.fifo_count)
    (hz : pp.fifo_count - 1 = 0) :
    (parallel_fifo_pop pp).2.ecr &&& 1 = 1 := by
  unfold parallel_fifo_pop
  rw [if_pos hpos]
  dsimp only
  rw [if_pos hz]
  exact lor_one_and_one _

theorem drain_reaches_empty (n : Nat) :
    ∀ (pp : ParallelPort) (p : ParallelBusPort), pp.fifo_count.toNat ≤ n →
      0 < pp.fifo_count →
      (parallel_drain_fifo pp p).1.fifo_count = 0 ∧
      (parallel_drain_fifo pp p).1.ecr &&& 1 = 1 := by
  induction n with
  | zero =>
      intro pp p hle hpos
      exfalso
      omega
  | succ n ih =>
      intro pp p hle hpos
      have hpop2 : (parallel_fifo_pop pp).2.fifo_count = pp.fifo_count - 1 := by
        rw [pop_fifo_count, if_pos hpos]
      rw [parallel_drain_fifo, dif_pos hpos]
      dsimp only
      by_cases hz : 0 < pp.fifo_count - 1
      · exact ih _ _ (by rw [handshake_fifo_count]; dsimp only; omega)
          (by rw [handshake_fifo_count]; dsimp only; omega)
      · have hid := parallel_drain_fifo_empty
          (parallel_do_handshake
            { (parallel_fifo_pop pp).2 with data := (parallel_fifo_pop pp).1 } p).1
          (parallel_do_handshake
            { (parallel_fifo_pop pp).2 with data := (parallel_fifo_pop pp).1 } p).2.1
          (by rw [handshake_fifo_count]; dsimp only; omega)
        rw [hid]
        constructor
        · show (parallel_do_handshake _ _).1.fifo_count = 0
          rw [handshake_fifo_count]
          dsimp only
          omega
        · show (parallel_do_handshake _ _).1.ecr &&& 1 = 1
          rw [handshake_ecr]
          show (parallel_fifo_pop pp).2.ecr &&& 1 = 1
          exact pop_sets_empty_bit pp hpos (by omega)

theorem drain_result_empty (pp : ParallelPort) (p : ParallelBusPort)
    (h : 0 < pp.fifo_count) :
    (parallel_drain_fifo pp p).1.fifo_count = 0 ∧
    (parallel_drain_fifo pp p).1.ecr &&& 1 = 1 :=
  drain_reaches_empty pp.fifo_count.toNat pp p Nat.le.refl h

theorem push_from_empty (pp : ParallelPort) (d : Nat) (h0 : pp.fifo_count = 0) :
    (parallel_fifo_push pp d).fifo_count = 1 := by
  unfold parallel_fifo_push
  rw [if_pos (by omega)]
  dsimp only
  rw [if_neg (by omega)]
  dsimp only
  omega

/-- A port write never leaves bytes in the FIFO: the drain loop runs to
empty within the call, and the ECR empty bit is set again. -/
theorem parallel_write_drained (pp : ParallelPort) (off v : Nat) (p : ParallelBusPort)
    (h0 : pp.fifo_count = 0) (h1 : pp.ecr &&& 1 = 1) :
    (parallel_write pp off v p).1.fifo_count = 0 ∧
    (parallel_write pp off v p).1.ecr &&& 1 = 1 := by
  have hpush : (parallel_fifo_push pp v).fifo_count = 1 := push_from_empty pp v h0
  unfold parallel_write
  try dsimp only
  split_ifs
  all_goals first
    | exact ⟨h0, h1⟩
    | exact drain_result_empty _ _ (by rw [hpush]; norm_num)

theorem parallel_write_ecp_drained (pp : ParallelPort) (off v : Nat) (p : ParallelBusPort)
    (h0 : pp.fifo_count = 0) (h1 : pp.ecr &&& 1 = 1) :
    (parallel_write_ecp pp off v p).1.fifo_count = 0 ∧
    (parallel_write_ecp pp off v p).1.ecr &&& 1 = 1 := by
  have hpush : (parallel_fifo_push pp v).fifo_count = 1 := push_from_empty pp v h0
  have hecr : ((v &&& 0x1C) ||| (pp.ecr &&& 0x03)) &&& 1 = 1 := by
    rw [ecr_mix_and]
    have hc1 : (28 : Nat) &&& 1 = 0 := by decide
    have hc2 : (3 : Nat) &&& 1 = 1 := by decide
    rw [hc1, hc2, Nat.and_zero, Nat.zero_or]
    exact h1
  unfold parallel_write_ecp
  try dsimp only
  split_ifs
  all_goals first
    | exact ⟨h0, h1⟩
    | exact ⟨h0, hecr⟩
    | exact drain_result_empty _ _ (by rw [hpush]; norm_num)

theorem parallel_read_drained (pp : ParallelPort) (off : Nat) (p : ParallelBusPort)
    (h0 : pp.fifo_count = 0) (h1 : pp.ecr &&& 1 = 1) :
    (parallel_read pp off p).2.1.fifo_count = 0 ∧
    (parallel_read pp off p).2.1.ecr &&& 1 = 1 := by
  unfold parallel_read
  try dsimp only
  split_ifs <;> exact ⟨h0, h1⟩

theorem parallel_read_ecp_drained (pp : ParallelPort) (off : Nat)
    (h0 : pp.fifo_count = 0) (h1 : pp.ecr &&& 1 = 1) :
    (parallel_read_ecp pp off).2.fifo_count = 0 ∧
    (parallel_read_ecp pp off).2.ecr &&& 1 = 1 := by
  have hpop : parallel_fifo_pop pp = (0, pp) :=
    parallel_fifo_pop_empty pp (by omega)
  unfold parallel_read_ecp
  try dsimp only
  split_ifs
  all_goals first
    | exact ⟨h0, h1⟩
    | (rw [hpop]; exact ⟨h0, h1⟩)

/-- Between dispatcher calls both parallel FIFOs are empty with the ECR
empty bit (bit 0) set. -/
def Drained (m : Machine) : Prop :=
  m.lpt1.fifo_count = 0 ∧ m.lpt1.ecr &&& 1 = 1 ∧
  m.lpt2.fifo_count = 0 ∧ m.lpt2.ecr &&& 1 = 1

theorem superio_config_reg_write_keeps_drained (m : Machine) (reg v : Nat) (h : Drained m) :
    Drained (superio_config_reg_write m reg v) := by
  obtain ⟨d1, e1, d2, e2⟩ := h
  unfold Drained superio_config_reg_write
  split_ifs
  all_goals exact ⟨d1, e1, d2, e2⟩

set_option maxRecDepth 8192 in
theorem superio_write_ranges_keeps_drained (m : Machine) (port byte : Nat) (h : Drained m) :
    Drained (superio_write_ranges m port byte).1 := by
  obtain ⟨d1, e1, d2, e2⟩ := h
  obtain ⟨st, cm, cr, c665, c672, gpi, gpr, l1, l2, u1, u2, pb1, pb2, sb1, sb2, io⟩ := m
  simp only at d1 e1 d2 e2
  unfold superio_write_ranges
  try dsimp only
  by_cases h1 : st = SuperIOType.FDC37C672 ∧ port = 0x60
  · rw [if_pos h1]; exact ⟨d1, e1, d2, e2⟩
  rw [if_neg h1]
  by_cases h2 : st = SuperIOType.FDC37C672 ∧ port = 0x64
  · rw [if_pos h2]; exact ⟨d1, e1, d2, e2⟩
  rw [if_neg h2]
  by_cases h3 : st = SuperIOType.FDC37C672 ∧ port = 0xea
  · rw [if_pos h3]; exact ⟨d1, e1, d2, e2⟩
  rw [if_neg h3]
  by_cases h4 : st = SuperIOType.FDC37C672 ∧ port = 0xeb
  · rw [if_pos h4]; exact ⟨d1, e1, d2, e2⟩
  rw [if_neg h4]
  by_cases h5 : (0x1f0 ≤ port ∧ port ≤ 0x1f7) ∨ port = 0x3f6
  · rw [if_pos h5]
    split_ifs <;> exact ⟨d1, e1, d2, e2⟩
  rw [if_neg h5]
  by_cases h6 : 0x278 ≤ port ∧ port ≤ 0x27f
  · rw [if_pos h6]
    generalize port - 0x278 = q
    exact ⟨d1, e1, (parallel_write_drained l2 q byte pb2 d2 e2).1,
      (parallel_write_drained l2 q byte pb2 d2 e2).2⟩
  rw [if_neg h6]
  by_cases h7 : 0x378 ≤ port ∧ port ≤ 0x37f
  · rw [if_pos h7]
    generalize port - 0x378 = q
    exact ⟨(parallel_write_drained l1 q byte pb1 d1 e1).1,
      (parallel_write_drained l1 q byte pb1 d1 e1).2, d2, e2⟩
  rw [if_neg h7]
  by_cases h8 : 0x678 ≤ port ∧ port ≤ 0x67f
  · rw [if_pos h8]
    generalize port - 0x678 = q
    exact ⟨d1, e1, (parallel_write_ecp_drained l2 q byte pb2 d2 e2).1,
      (parallel_write_ecp_drained l2 q byte pb2 d2 e2).2⟩
  rw [if_neg h8]
  by_cases h9 : 0x778 ≤ port ∧ port ≤ 0x77f
  · rw [if_pos h9]
    generalize port - 0x778 = q
    exact ⟨(parallel_write_ecp_drained l1 q byte pb1 d1 e1).1,
      (parallel_write_ecp_drained l1 q byte pb1 d1 e1).2, d2, e2⟩
  rw [if_neg h9]
  by_cases h10 : 0x3f0 ≤ port ∧ port ≤ 0x3f7
  · rw [if_pos h10]; exact ⟨d1, e1, d2, e2⟩
  rw [if_neg h10]
  by_cases h11 : 0x3f8 ≤ port ∧ port ≤ 0x3ff
  · rw [if_pos h11]
    split_ifs <;> exact ⟨d1, e1, d2, e2⟩
  rw [if_neg h11]
  by_cases h12 : 0x2f8 ≤ port ∧ port ≤ 0x2ff
  · rw [if_pos h12]; exact ⟨d1, e1, d2, e2⟩
  rw [if_neg h12]
  exact ⟨d1, e1, d2, e2⟩

set_option maxRecDepth 8192 in
theorem superio_write_keeps_drained (m : Machine) (addr val : Nat) (h : Drained m) :
    Drained (superio_write m addr val).1 := by
  obtain ⟨d1, e1, d2, e2⟩ := h
  obtain ⟨st, cm, cr, c665, c672, gpi, gpr, l1, l2, u1, u2, pb1, pb2, sb1, sb2, io⟩ := m
  simp only at d1 e1 d2 e2
  have hranges := superio_write_ranges_keeps_drained
    { super_type := st, configmode := 0, configreg := cr, configregs665 := c665,
      configregs672 := c672, gp_index := gpi, gp_regs := gpr, lpt1 := l1, lpt2 := l2,
      com1 := u1, com2 := u2, pbus1 := pb1, pbus2 := pb2, sbus1 := sb1, sbus2 := sb2,
      iomd := io } ((addr >>> 2) &&& 0x7FF) (val % 256) ⟨d1, e1, d2, e2⟩
  unfold superio_write
  try dsimp only
  by_cases hcm : cm = 2
  · rw [if_pos hcm]
    split_ifs
    all_goals first
      | exact ⟨d1, e1, d2, e2⟩
      | exact superio_config_reg_write_keeps_drained _ _ _ ⟨d1, e1, d2, e2⟩
  rw [if_neg hcm]
  by_cases hmag : (addr >>> 2) &&& 0x7FF = 0x3f0 ∧ val % 256 = 0x55
  · rw [if_pos hmag]
    split_ifs <;> exact ⟨d1, e1, d2, e2⟩
  rw [if_neg hmag]
  exact hranges

set_option maxRecDepth 8192 in
theorem superio_read_keeps_drained (m : Machine) (addr : Nat) (h : Drained m) :
    Drained (superio_read m addr).2 := by
  obtain ⟨d1, e1, d2, e2⟩ := h
  obtain ⟨st, cm, cr, c665, c672, gpi, gpr, l1, l2, u1, u2, pb1, pb2, sb1, sb2, io⟩ := m
  simp only at d1 e1 d2 e2
  unfold superio_read
  try dsimp only
  by_cases h1 : cm = 2 ∧ (addr >>> 2) &&& 0x7FF = 0x3f1
  · rw [if_pos h1]
    split_ifs <;> exact ⟨d1, e1, d2, e2⟩
  rw [if_neg h1]
  by_cases h2 : st = SuperIOType.FDC37C672 ∧ (addr >>> 2) &&& 0x7FF = 0x60
  · rw [if_pos h2]; exact ⟨d1, e1, d2, e2⟩
  rw [if_neg h2]
  by_cases h3 : st = SuperIOType.FDC37C672 ∧ (addr >>> 2) &&& 0x7FF = 0x64
  · rw [if_pos h3]; exact ⟨d1, e1, d2, e2⟩
  rw [if_neg h3]
  by_cases h4 : st = SuperIOType.FDC37C672 ∧ (addr >>> 2) &&& 0x7FF = 0xea
  · rw [if_pos h4]; exact ⟨d1, e1, d2, e2⟩
  rw [if_neg h4]
  by_cases h5 : st = SuperIOType.FDC37C672 ∧ (addr >>> 2) &&& 0x7FF = 0xeb
  · rw [if_pos h5]; exact ⟨d1, e1, d2, e2⟩
  rw [if_neg h5]
  by_cases h6 : (0x1f0 ≤ (addr >>> 2) &&& 0x7FF ∧ (addr >>> 2) &&& 0x7FF ≤ 0x1f7) ∨
      (addr >>> 2) &&& 0x7FF = 0x3f6
  · rw [if_pos h6]
    split_ifs <;> exact ⟨d1, e1, d2, e2⟩
  rw [if_neg h6]
  by_cases h7 : 0x278 ≤ (addr >>> 2) &&& 0x7FF ∧ (addr >>> 2) &&& 0x7FF ≤ 0x27f
  · rw [if_pos h7]
    generalize ((addr >>> 2) &&& 0x7FF) - 0x278 = q
    exact ⟨d1, e1, (parallel_read_drained l2 q pb2 d2 e2).1,
      (parallel_read_drained l2 q pb2 d2 e2).2⟩
  rw [if_neg h7]
  by_cases h8 : 0x378 ≤ (addr >>> 2) &&& 0x7FF ∧ (addr >>> 2) &&& 0x7FF ≤ 0x37f
  · rw [if_pos h8]
    generalize ((addr >>> 2) &&& 0x7FF) - 0x378 = q
    exact ⟨(parallel_read_drained l1 q pb1 d1 e1).1,
      (parallel_read_drained l1 q pb1 d1 e1).2, d2, e2⟩
  rw [if_neg h8]
  by_cases h9 : 0x678 ≤ (addr >>> 2) &&& 0x7FF ∧ (addr >>> 2) &&& 0x7FF ≤ 0x67f
  · rw [if_pos h9]
    generalize ((addr >>> 2) &&& 0x7FF) - 0x678 = q
    exact ⟨d1, e1, (parallel_read_ecp_drained l2 q d2 e2).1,
      (parallel_read_ecp_drained l2 q d2 e2).2⟩
  rw [if_neg h9]
  by_cases h10 : 0x778 ≤ (addr >>> 2) &&& 0x7FF ∧ (addr >>> 2) &&& 0x7FF ≤ 0x77f
  · rw [if_pos h10]
    generalize ((addr >>> 2) &&& 0x7FF) - 0x778 = q
    exact ⟨(parallel_read_ecp_drained l1 q d1 e1).1,
      (parallel_read_ecp_drained l1 q d1 e1).2, d2, e2⟩
  rw [if_neg h10]
  by_cases h11 : 0x3f0 ≤ (addr >>> 2) &&& 0x7FF ∧ (addr >>> 2) &&& 0x7FF ≤ 0x3f7
  · rw [if_pos h11]; exact ⟨d1, e1, d2, e2⟩
  rw [if_neg h11]
  by_cases h12 : 0x3f8 ≤ (addr >>> 2) &&& 0x7FF ∧ (addr >>> 2) &&& 0x7FF ≤ 0x3ff
  · rw [if_pos h12]
    split_ifs <;> exact ⟨d1, e1, d2, e2⟩
  rw [if_neg h12]
  by_cases h13 : 0x2f8 ≤ (addr >>> 2) &&& 0x7FF ∧ (addr >>> 2) &&& 0x7FF ≤ 0x2ff
  · rw [if_pos h13]; exact ⟨d1, e1, d2, e2⟩
  rw [if_neg h13]
  exact ⟨d1, e1, d2, e2⟩

theorem superio_reset_drained (t : SuperIOType) (m : Machine) :
    Drained (superio_reset t m) :=
  ⟨rfl, Nat.and_self 1, rfl, Nat.and_self 1⟩

theorem parallel_read_ecp_fifo_zero (pp : ParallelPort) (h0 : pp.fifo_count = 0) :
    (parallel_read_ecp pp 0).1 = 0 := by
  unfold parallel_read_ecp
  rw [if_pos rfl, parallel_fifo_pop_empty pp (by omega)]

theorem superio_read_ecp_fifo_returns_zero (m : Machine) (h : Drained m) :
    (superio_read m 0x19E0).1 = ReadVal.val 0 ∧
    (superio_read m 0x1DE0).1 = ReadVal.val 0 := by
  obtain ⟨d1, e1, d2, e2⟩ := h
  have hp1 : ((0x19E0 : Nat) >>> 2) &&& 0x7FF = 0x678 := by decide
  have hp2 : ((0x1DE0 : Nat) >>> 2) &&& 0x7FF = 0x778 := by decide
  have hs1 : (0x678 : Nat) - 0x678 = 0 := by decide
  have hs2 : (0x778 : Nat) - 0x778 = 0 := by decide
  constructor
  · unfold superio_read
    dsimp only
    simp only [hp1]
    rw [if_neg (fun hc => absurd hc.2 (by decide)),
        if_neg (fun hc => absurd hc.2 (by decide)),
        if_neg (fun hc => absurd hc.2 (by decide)),
        if_neg (fun hc => absurd hc.2 (by decide)),
        if_neg (fun hc => absurd hc.2 (by decide)),
        if_neg (by decide : ¬((0x1f0 ≤ (0x678 : Nat) ∧ (0x678 : Nat) ≤ 0x1f7) ∨
          (0x678 : Nat) = 0x3f6)),
        if_neg (by decide : ¬(0x278 ≤ (0x678 : Nat) ∧ (0x678 : Nat) ≤ 0x27f)),
        if_neg (by decide : ¬(0x378 ≤ (0x678 : Nat) ∧ (0x678 : Nat) ≤ 0x37f)),
        if_pos (by decide : (0x678 ≤ (0x678 : Nat) ∧ (0x678 : Nat) ≤ 0x67f))]
    dsimp only
    rw [hs1, parallel_read_ecp_fifo_zero m.lpt2 d2]
  · unfold superio_read
    dsimp only
    simp only [hp2]
    rw [if_neg (fun hc => absurd hc.2 (by decide)),
        if_neg (fun hc => absurd hc.2 (by decide)),
        if_neg (fun hc => absurd hc.2 (by decide)),
        if_neg (fun hc => absurd hc.2 (by decide)),
        if_neg (fun hc => absurd hc.2 (by decide)),
        if_neg (by decide : ¬((0x1f0 ≤ (0x778 : Nat) ∧ (0x778 : Nat) ≤ 0x1f7) ∨
          (0x778 : Nat) = 0x3f6)),
        if_neg (by decide : ¬(0x278 ≤ (0x778 : Nat) ∧ (0x778 : Nat) ≤ 0x27f)),
        if_neg (by decide : ¬(0x378 ≤ (0x778 : Nat) ∧ (0x778 : Nat) ≤ 0x37f)),
        if_neg (by decide : ¬(0x678 ≤ (0x778 : Nat) ∧ (0x778 : Nat) ≤ 0x67f)),
        if_pos (by decide : (0x778 ≤ (0x778 : Nat) ∧ (0x778 : Nat) ≤ 0x77f))]
    dsimp only
    rw [hs2, parallel_read_ecp_fifo_zero m.lpt1 d1]

/-- Claim C10: the FIFO is drained within every dispatcher call.  The
Drained predicate (both parallel ports have fifo_count = 0 and the ECR
empty bit set) holds after superio_reset, is preserved by every
superio_write and every superio_read, and under it a guest read of
either ECP Data FIFO register (port 0x678 for LPT2 at address 0x19E0,
port 0x778 for LPT1 at address 0x1DE0) pops from an empty FIFO and
returns 0. -/
theorem C10_fifo_always_drained :
    (∀ (t : SuperIOType) (m : Machine), Drained (superio_reset t m)) ∧
    (∀ (m : Machine) (addr val : Nat), Drained m → Drained (superio_write m addr val).1) ∧
    (∀ (m : Machine) (addr : Nat), Drained m → Drained (superio_read m addr).2) ∧
    (∀ (m : Machine), Drained m →
      (superio_read m 0x19E0).1 = ReadVal.val 0 ∧
      (superio_read m 0x1DE0).1 = ReadVal.val 0) :=
  ⟨superio_reset_drained, superio_write_keeps_drained, superio_read_keeps_drained,
   superio_read_ecp_fifo_returns_zero⟩

/-- Witness for C10_fifo_always_drained at the freshly initialised 665GT
machine: a data write to LPT2 (port 0x278, address 0x9E0) leaves the
ports drained, a read of the LPT2 ECP Data FIFO leaves them drained, and
that read returns 0. -/
theorem C10_fifo_always_drained_witness :
    Drained (superio_write (machine_init SuperIOType.FDC37C665GT) 0x9E0 0x41).1 ∧
    Drained (superio_read (machine_init SuperIOType.FDC37C665GT) 0x19E0).2 ∧
    (superio_read (machine_init SuperIOType.FDC37C665GT) 0x19E0).1 = ReadVal.val 0 :=
  ⟨C10_fifo_always_drained.2.1 (machine_init SuperIOType.FDC37C665GT) 0x9E0 0x41 (by unfold Drained; decide),
   C10_fifo_always_drained.2.2.1 (machine_init SuperIOType.FDC37C665GT) 0x19E0 (by unfold Drained; decide),
   (C10_fifo_always_drained.2.2.2 (machine_init SuperIOType.FDC37C665GT) (by unfold Drained; decide)).1⟩
